import Mathlib

/-!
Verification development for the runpod-worker-comfy job execution
orchestrator (src/handler.py).  The Python source is shallowly embedded:
dictionaries become association lists (Python dicts preserve insertion
order, so an ordered association list with distinct keys is a faithful
model), JSON values become the inductive `JValue`, and all effectful
collaborators (HTTP calls, websocket frames, uploads) are supplied as
explicit oracle arguments.
-/

namespace WorkerComfy

/-- A JSON-like Python value: the payloads that flow through the handler
(workflow node fields, websocket frames, HTTP response bodies). -/
inductive JValue where
  | str (s : String)
  | num (n : Int)
  | bool (b : Bool)
  | null
  | list (xs : List JValue)
  | obj (fields : List (String × JValue))

/-!
Python `repr` of a value (approximated: string escaping inside nested
containers is not modelled; no claim depends on it).
-/
mutual

def pyRepr : JValue → String
  | .str s => "\x27" ++ s ++ "\x27"
  | .num n => toString n
  | .bool b => Bool.rec "False" "True" b
  | .null => "None"
  | .list xs => "[" ++ pyReprSeq xs ++ "]"
  | .obj kvs => "\x7b" ++ pyReprObjSeq kvs ++ "\x7d"

def pyReprSeq : List JValue → String
  | [] => ""
  | [x] => pyRepr x
  | x :: y :: rest => pyRepr x ++ ", " ++ pyReprSeq (y :: rest)

def pyReprObjSeq : List (String × JValue) → String
  | [] => ""
  | [kv] => "\x27" ++ kv.1 ++ "\x27: " ++ pyRepr kv.2
  | kv :: kv2 :: rest => "\x27" ++ kv.1 ++ "\x27: " ++ pyRepr kv.2 ++ ", " ++ pyReprObjSeq (kv2 :: rest)

end

/-- Python `str()` of a value: the identity on strings, `repr`-like on
everything else (matches CPython for numbers, booleans, `None`, lists and
dicts). -/
def pyStr : JValue → String
  | .str s => s
  | v => pyRepr v

/-!
Structural equality of values, modelling Python `==` on JSON data.
-/
mutual

def jvBeq : JValue → JValue → Bool
  | .str a, .str b => a == b
  | .num a, .num b => a == b
  | .bool a, .bool b => a == b
  | .null, .null => true
  | .list a, .list b => jvBeqSeq a b
  | .obj a, .obj b => jvBeqObjSeq a b
  | _, _ => false

def jvBeqSeq : List JValue → List JValue → Bool
  | [], [] => true
  | x :: xs, y :: ys => jvBeq x y && jvBeqSeq xs ys
  | _, _ => false

def jvBeqObjSeq : List (String × JValue) → List (String × JValue) → Bool
  | [], [] => true
  | kv :: xs, kw :: ys => kv.1 == kw.1 && jvBeq kv.2 kw.2 && jvBeqObjSeq xs ys
  | _, _ => false

end

instance : BEq JValue := ⟨jvBeq⟩

/-- ASCII lowercasing of one character, as Python `.lower()` acts on the
ASCII operation names appearing in workflows. -/
def lowerChar (c : Char) : Char :=
  if 65 ≤ c.toNat ∧ c.toNat ≤ 90 then Char.ofNat (c.toNat + 32) else c

/-- Python `s.lower()` (ASCII range). -/
def pyLower (s : String) : String := ⟨s.data.map lowerChar⟩

/-- Python `s.replace(" ", "_")`. -/
def pyUnderscoreSpaces (s : String) : String :=
  ⟨s.data.map (fun c => if c = ' ' then '_' else c)⟩

/-- Whether the first list is a prefix of the second. -/
def charsStartWith : List Char → List Char → Bool
  | [], _ => true
  | _ :: _, [] => false
  | a :: as, b :: bs => b == a && charsStartWith as bs

/-- Whether `pat` occurs inside `s`. -/
def charsContain (s pat : List Char) : Bool :=
  match s with
  | [] => pat.isEmpty
  | _ :: rest => charsStartWith pat s || charsContain rest pat

/-- Python `sub in s` for strings. -/
def strContains (s sub : String) : Bool := charsContain s.data sub.data

/-- A workflow node, i.e. one value of the workflow dictionary in
`normalize_workflow_for_caching`.  The source accesses exactly two keys
(`class_type` via `.get` and `inputs`); all other key/value pairs are
carried through untouched in `extra`. -/
structure Node where
  class_type : Option String := none
  inputs : Option (List (String × JValue)) := none
  extra : List (String × JValue) := []

/-- `node_data.get("class_type", "")`. -/
def classTypeOf (n : Node) : String := n.class_type.getD ""

/-- A workflow is a Python dict mapping node-id strings to nodes; modelled
as an insertion-ordered association list (keys of an actual dict are
pairwise distinct). -/
abbrev Workflow := List (String × Node)

/-- Python dict assignment `d[k] = v` on an association list: overwrite in
place when the key exists (dicts keep the original position), append
otherwise. -/
def upsert {α : Type} (d : List (String × α)) (k : String) (v : α) : List (String × α) :=
  if d.any (fun p => p.1 == k) then d.map (fun p => if p.1 == k then (k, v) else p)
  else d ++ [(k, v)]

/-- The fixed `standard_node_mapping` table from
`normalize_workflow_for_caching`. -/
def standard_node_mapping : List (String × String) :=
  [("LoadDiffusionModelShared //Inspire", "model_loader_1"),
   ("CLIPLoader", "clip_loader_1"),
   ("VAELoader", "vae_loader_1"),
   ("CLIPVisionLoader", "clip_vision_loader_1"),
   ("WanImageToVideo", "wan_i2v_1"),
   ("LoadImage", "load_image_1"),
   ("CLIPVisionEncode", "clip_vision_encode_1"),
   ("ModelSamplingSD3", "model_sampling_1"),
   ("KSampler", "ksampler_1"),
   ("VAEDecode", "vae_decode_1"),
   ("CLIPTextEncode", "clip_text_encode"),
   ("SaveAnimatedWEBP", "save_webp_1"),
   ("VHS_VideoCombine", "vhs_videocombine_1")]

/-- One step of the first pass: the new id chosen for a node of class
`ct`, together with the updated per-type counters
(`node_type_counters`). -/
def newIdFor (ct : String) (counters : List (String × Nat)) : String × List (String × Nat) :=
  match standard_node_mapping.lookup ct with
  | some nid => (nid, counters)
  | none =>
    let c : Nat :=
      match counters.lookup ct with
      | none => 1
      | some k => k + 1
    (pyUnderscoreSpaces (pyLower ct) ++ "_" ++ toString c, upsert counters ct c)

/-- First pass of `normalize_workflow_for_caching`: the list of new ids
assigned to the nodes, in workflow order. -/
def assignIds : Workflow → List (String × Nat) → List String
  | [], _ => []
  | (_, nd) :: rest, counters =>
    let (nid, counters2) := newIdFor (classTypeOf nd) counters
    nid :: assignIds rest counters2

/-- The `old_to_new_id` table: old node ids zipped with their assigned new
ids (for an actual dict the old ids are pairwise distinct, so association
list lookup agrees with Python dict lookup). -/
def buildTable (wf : Workflow) : List (String × String) :=
  (wf.map Prod.fst).zip (assignIds wf [])

/-- Reference rewriting of one input value: a 2-element list is treated as
a node reference `[node_id, output_index]`; its first component is
rewritten through the table when `str(input_value[0])` is a known old id,
and passed through untouched otherwise. -/
def rewriteInput (table : List (String × String)) (v : JValue) : JValue :=
  match v with
  | .list [a, b] =>
    match table.lookup (pyStr a) with
    | some nid => .list [.str nid, b]
    | none => .list [a, b]
  | v => v

/-- Second-pass node copy: every input value is rewritten; `class_type`
and all other fields are untouched. -/
def rewriteNode (table : List (String × String)) (nd : Node) : Node :=
  { nd with inputs := nd.inputs.map (fun ins => ins.map (fun kv => (kv.1, rewriteInput table kv.2))) }

/-- `normalize_workflow_for_caching` (src/handler.py:516-597): pass 1
assigns canonical ids, pass 2 rebuilds the dict under the new ids (later
nodes overwrite earlier ones on id collision, exactly as the Python dict
assignment does) and rewrites node references through the table. -/
def normalize_workflow_for_caching (wf : Workflow) : Workflow :=
  let table := buildTable wf
  (wf.zip (assignIds wf [])).foldl
    (fun acc p => upsert acc p.2 (rewriteNode table p.1.2)) []

/-- Sanity evaluation of the canonicalizer: a `CLIPLoader` feeding a
`KSampler` is renamed to the standard ids with the reference rewritten in
lock-step. -/
theorem normalize_workflow_sanity :
    normalize_workflow_for_caching
      [("3", { class_type := some "CLIPLoader", inputs := some [] }),
       ("4", { class_type := some "KSampler",
               inputs := some [("clip", .list [.str "3", .num 0])] })] =
      [("clip_loader_1", { class_type := some "CLIPLoader", inputs := some [] }),
       ("ksampler_1", { class_type := some "KSampler",
                        inputs := some [("clip", .list [.str "clip_loader_1", .num 0])] })] := by
  rfl

/-!
Execution monitor (src/handler.py:740-830).  The monitor consumes frames
from the websocket; a frame is either binary (skipped), invalid JSON
(logged and skipped) or a JSON message with a `type` field and a `data`
object.  Only the fields the loop reads are modelled; each field holds the
result of the corresponding `data.get(...)` call (`none` covers both an
absent key and a JSON null, which Python conflates as `None`).
-/

/-- The fields of a lifecycle event's `data` object read by the loop. -/
structure EventData where
  node : Option JValue := none
  prompt_id : Option JValue := none
  node_type : Option JValue := none
  node_id : Option JValue := none
  exception_message : Option JValue := none

/-- One incoming websocket frame. -/
inductive WsMsg where
  | binaryFrame
  | invalidJson
  | frame (type_ : Option JValue) (data : EventData)

/-- Python `str()` of an optional value (`str(None) = "None"`). -/
def pyStrOpt : Option JValue → String
  | none => "None"
  | some v => pyStr v

/-- The error text recorded for a matching `execution_error` event. -/
def execErrorDetails (d : EventData) : String :=
  "Node Type: " ++ pyStrOpt d.node_type ++ ", Node ID: " ++ pyStrOpt d.node_id ++
    ", Message: " ++ pyStrOpt d.exception_message

/-- What one frame does to the monitor loop. -/
inductive LoopStep where
  | completedBreak
  | errorBreak (e : String)
  | next

/-- Per-frame dispatch of the monitor loop: `executing` with a null node
and matching prompt id breaks with completion, `execution_error` with a
matching prompt id records the error and breaks, everything else only
logs and continues. -/
def classifyFrame (pid : JValue) (m : WsMsg) : LoopStep :=
  match m with
  | .binaryFrame => .next
  | .invalidJson => .next
  | .frame t d =>
    match t with
    | some (.str "executing") =>
      if d.node == none && d.prompt_id == some pid then .completedBreak else .next
    | some (.str "execution_error") =>
      if d.prompt_id == some pid then
        .errorBreak ("Workflow execution error: " ++ execErrorDetails d)
      else .next
    | _ => .next

/-- How the monitor loop ended on a finite frame sequence. -/
inductive MonitorEnd where
  | completedBreak (errors : List String) (remaining : List WsMsg)
  | errorBreak (errors : List String) (remaining : List WsMsg)
  | ranOut (errors : List String)

/-- The `while True` receive loop: frames are consumed in order until one
of the two `break` statements fires; `ranOut` marks the end of the
supplied frame sequence (in the real loop the socket would then block,
time out or disconnect). -/
def monitorLoop (pid : JValue) : List WsMsg → List String → MonitorEnd
  | [], errs => .ranOut errs
  | m :: rest, errs =>
    match classifyFrame pid m with
    | .completedBreak => .completedBreak errs rest
    | .errorBreak e => .errorBreak (errs ++ [e]) rest
    | .next => monitorLoop pid rest errs

/-- Terminal monitor states as surfaced by the loop. -/
inductive MonitorOutcome where
  | completed
  | failed (errors : List String)
  | ranOut

/-- Final state of the monitor for a job with engine job id `pid`. -/
def monitorOutcome (pid : JValue) (msgs : List WsMsg) : MonitorOutcome :=
  match monitorLoop pid msgs [] with
  | .completedBreak _ _ => .completed
  | .errorBreak errs _ => .failed errs
  | .ranOut _ => .ranOut

/-!
Websocket reconnection (`_attempt_websocket_reconnect`,
src/handler.py:60-129).  The two effectful collaborators are oracles
indexed by the loop iteration: `probe i` is the reachability answer of
`_comfy_server_status()` before attempt `i`, and `connect i` is the
outcome of the `i`-th `new_ws.connect` call (a socket handle, or the
caught reconnect error's text).
-/

/-- Result of the reconnect routine.  `unreachableAbort n` is the
immediate `WebSocketConnectionClosedException("ComfyUI HTTP unreachable
during websocket reconnect")` raised after `n` connect attempts were made;
`exhausted e` is the final exception carrying the last error;
`connected s i` is a successful return of socket `s` on attempt `i`. -/
inductive ReconnectOutcome where
  | unreachableAbort (attemptsMade : Nat)
  | connected (sock : Nat) (attempt : Nat)
  | exhausted (lastError : String)

/-- The `for attempt in range(max_attempts)` loop, with `i` the current
attempt index and `rem` the remaining iterations. -/
def reconnectLoop (probe : Nat → Bool) (connect : Nat → Except String Nat) :
    Nat → Nat → String → ReconnectOutcome
  | _, 0, lastErr => .exhausted lastErr
  | i, rem + 1, _lastErr =>
    if probe i then
      match connect i with
      | .ok s => .connected s i
      | .error e => reconnectLoop probe connect (i + 1) rem e
    else .unreachableAbort i

/-- `_attempt_websocket_reconnect(ws_url, max_attempts, delay_s,
initial_error)`: probes HTTP liveness before every attempt, aborts
immediately when the engine is unreachable, and otherwise retries up to
`max_attempts` times, finally raising with the last error. -/
def attemptWebsocketReconnect (probe : Nat → Bool) (connect : Nat → Except String Nat)
    (max_attempts : Nat) (initial_error : String) : ReconnectOutcome :=
  reconnectLoop probe connect 0 max_attempts initial_error

/-!
Output collector (src/handler.py:857-1047).  One entry of a node's
`images`/`gifs` list, after the `.get` calls the source performs.
Artifact-byte fetches, S3 uploads and base64 encoding are oracles in
`CollectEnv`; a fetch result `[]` covers both a `None` return of
`get_image_data`/`get_video_data` and empty bytes (both falsy in Python,
taking the same error branch).
-/

/-- One manifest entry (`image_info` / `video_info`). -/
structure ArtifactInfo where
  filename : Option String := none
  subfolder : String := ""
  type_ : Option String := none

/-- The outputs of one producing node; `other` lists unhandled output
keys, which are only warned about. -/
structure NodeOutput where
  images : Option (List ArtifactInfo) := none
  gifs : Option (List ArtifactInfo) := none
  other : List String := []

/-- One entry appended to `output_data`. -/
structure OutputEntry where
  filename : String
  type_ : String
  data : String
deriving DecidableEq

/-- Effectful collaborators of the collection loop.  `bucketConfigured`
models `os.environ.get("BUCKET_ENDPOINT_URL")` being set (read once per
artifact in the source, but constant over a job).  `uploadS3 fn` is the
`rp_upload.upload_image` outcome for filename `fn` (`error` = raised
exception text); base64 encoding of bytes never fails. -/
structure CollectEnv where
  bucketConfigured : Bool
  fetchImage : String → String → Option String → List Nat
  fetchVideo : String → String → String → List Nat
  uploadS3 : String → Except String String
  b64encode : List Nat → String

/-- Processing of one entry of a node's `images` list: temp images are
skipped, a missing filename records an error, a failed byte fetch records
an error, and otherwise the artifact is persisted through exactly one of
the two persistence branches. -/
def processImage (env : CollectEnv) (node_id : String)
    (acc : List OutputEntry × List String) (info : ArtifactInfo) :
    List OutputEntry × List String :=
  let (outs, errs) := acc
  if info.type_ == some "temp" then acc
  else if info.filename == none || info.filename == some "" then
    (outs, errs ++ ["Skipping image in node " ++ node_id ++ " due to missing filename"])
  else
    let fn := info.filename.getD ""
    let bytes := env.fetchImage fn info.subfolder info.type_
    if bytes.isEmpty then
      (outs, errs ++ ["Failed to fetch image data for " ++ fn ++ " from /view endpoint."])
    else if env.bucketConfigured then
      match env.uploadS3 fn with
      | .ok url => (outs ++ [⟨fn, "s3_url", url⟩], errs)
      | .error e => (outs, errs ++ ["Error uploading " ++ fn ++ " to S3: " ++ e])
    else
      (outs ++ [⟨fn, "base64", env.b64encode bytes⟩], errs)

/-- Processing of one entry of a node's `gifs` list; identical to the
image path except that the declared type defaults to `"output"` and the
video fetch endpoint is used. -/
def processVideo (env : CollectEnv) (node_id : String)
    (acc : List OutputEntry × List String) (info : ArtifactInfo) :
    List OutputEntry × List String :=
  let (outs, errs) := acc
  let file_type := info.type_.getD "output"
  if file_type == "temp" then acc
  else if info.filename == none || info.filename == some "" then
    (outs, errs ++ ["Skipping video in node " ++ node_id ++ " due to missing filename"])
  else
    let fn := info.filename.getD ""
    let bytes := env.fetchVideo fn info.subfolder file_type
    if bytes.isEmpty then
      (outs, errs ++ ["Failed to fetch video data for " ++ fn ++ " from /view endpoint."])
    else if env.bucketConfigured then
      match env.uploadS3 fn with
      | .ok url => (outs ++ [⟨fn, "s3_url", url⟩], errs)
      | .error e => (outs, errs ++ ["Error uploading " ++ fn ++ " to S3: " ++ e])
    else
      (outs ++ [⟨fn, "base64", env.b64encode bytes⟩], errs)

/-- Processing of one node's outputs: all `images` entries, then all
`gifs` entries (unhandled keys are only warned about). -/
def processNode (env : CollectEnv) (acc : List OutputEntry × List String)
    (p : String × NodeOutput) : List OutputEntry × List String :=
  let acc1 := match p.2.images with
    | some l => l.foldl (processImage env p.1) acc
    | none => acc
  match p.2.gifs with
  | some l => l.foldl (processVideo env p.1) acc1
  | none => acc1

/-- The collection loop over all output nodes, accumulating
`output_data` and continuing an already-started `errors` list in manifest
order (the handler's `errors` list predates collection). -/
def collectOutputsFrom (env : CollectEnv) (errs : List String)
    (outputs : List (String × NodeOutput)) : List OutputEntry × List String :=
  outputs.foldl (processNode env) ([], errs)

/-- The collection loop started with no prior errors. -/
def collectOutputs (env : CollectEnv) (outputs : List (String × NodeOutput)) :
    List OutputEntry × List String :=
  collectOutputsFrom env [] outputs

/-!
Final result classification (src/handler.py:1070-1093).
-/

/-- The handler's returned dictionary, as a record of its optional keys. -/
structure HandlerResult where
  images : Option (List OutputEntry) := none
  errors : Option (List String) := none
  status : Option String := none
  error : Option String := none
  details : Option (List String) := none

/-- The final-result construction at the end of `handler`: images and
errors keys when non-empty, a hard failure dict when there are errors but
no outputs, and `success_no_files` when there is neither. -/
def classifyResult (output_data : List OutputEntry) (errors : List String) : HandlerResult :=
  let fr0 : HandlerResult := {}
  let fr1 := if output_data.isEmpty then fr0 else { fr0 with images := some output_data }
  let fr2 := if errors.isEmpty then fr1 else { fr1 with errors := some errors }
  if output_data.isEmpty && !errors.isEmpty then
    { error := some "Job processing failed", details := some errors }
  else if output_data.isEmpty && errors.isEmpty then
    { fr2 with status := some "success_no_files", images := some ([] : List OutputEntry) }
  else fr2

/-!
Job submitter (`queue_workflow`, src/handler.py:323-425) and the
best-effort model enumeration (`get_available_models`,
src/handler.py:294-320).
-/

/-- A raised Python exception, as far as the handler distinguishes them.
`jsonDecodeError` is the `response.json()` parse failure (a `ValueError`
subclass in Python). -/
inductive PyErr where
  | typeError
  | attributeError
  | valueError (msg : String)
  | jsonDecodeError
  | wsError (msg : String)
  | httpError (msg : String)
  | streamClosed (msg : String)

/-- Python `needle in container`: key membership for dicts, element
membership for lists, substring test for strings, `TypeError` for
non-container values. -/
def pyIn (needle : String) : JValue → Except PyErr Bool
  | .obj o => .ok (o.any (fun p => p.1 == needle))
  | .list xs => .ok (xs.any (fun x => x == JValue.str needle))
  | .str s => .ok (strContains s needle)
  | _ => .error .typeError

/-- Python `v += s` for an error-message accumulator: string
concatenation, `TypeError` when `v` is not a string. -/
def pyAddStr (v : JValue) (s : String) : Except PyErr JValue :=
  match v with
  | .str a => .ok (.str (a ++ s))
  | _ => .error .typeError

/-- Python `sep.join(xs)`: `TypeError` unless every element is a
string. -/
def pyJoinStrs (sep : String) (xs : List JValue) : Except PyErr String :=
  if xs.all (fun v => match v with | .str _ => true | _ => false) then
    .ok (sep.intercalate (xs.map pyStr))
  else .error .typeError

/-- The per-node error lines built from one `node_errors` entry:
dict-shaped entries yield one `Node <id> (<errorType>): <message>` line
per item, anything else a single `Node <id>: <error>` line. -/
def formatNodeErrorLines (node_id : String) (v : JValue) : List String :=
  match v with
  | .obj entries => entries.map (fun p => "Node " ++ node_id ++ " (" ++ p.1 ++ "): " ++ pyStr p.2)
  | other => ["Node " ++ node_id ++ ": " ++ pyStr other]

/-- The checkpoint-name extraction inside `get_available_models`: the
`checkpoints` entry is set only when the object-info walk succeeds and
`ckpt_name` holds a non-empty list, taking its first element when that is
itself a list and the empty list otherwise; every anomaly along the walk
raises inside the function's `try` and is swallowed. -/
def extractCheckpoints : JValue → Option (List JValue)
  | .obj o =>
    match o.lookup "CheckpointLoaderSimple" with
    | some (.obj ci) =>
      match ci.lookup "input" with
      | some (.obj inp) =>
        match inp.lookup "required" with
        | some (.obj req) =>
          match req.lookup "ckpt_name" with
          | some (.list (x :: _)) =>
            some (match x with | .list l => l | _ => [])
          | _ => none
        | _ => none
      | _ => none
    | _ => none
  | _ => none

/-- `get_available_models()`: the whole body runs inside
`try ... except Exception: return {}`, so an HTTP failure (`oi = .error`)
or any unexpected shape yields the empty dictionary and never raises. -/
def get_available_models (oi : Except String JValue) : List (String × List JValue) :=
  match oi with
  | .error _ => []
  | .ok info =>
    match extractCheckpoints info with
    | some cks => [("checkpoints", cks)]
    | none => []

/-- The HTTP-400 branch of `queue_workflow`, given the parsed response
body `ed` and raw text.  Every path raises: the result is the exception —
a `ValueError` on the intended paths, or an escaping `TypeError` /
`AttributeError` when the body is valid JSON but not shaped like the
dictionaries the code expects (only `json.JSONDecodeError` and `KeyError`
are caught by the fallback). -/
def process400 (ed : JValue) (rawText : String) (oi : Except String JValue) : PyErr :=
  match ed with
  | .obj o =>
    -- On a dict body the `in` tests, the indexing they guard and the
    -- `.get` calls cannot raise; the one remaining crash site is
    -- `.items()` on a non-dict `node_errors` value.
    let em : JValue :=
      if o.any (fun p => p.1 == "error") then
        match o.lookup "error" with
        | some (.obj ei) =>
          if ei.lookup "type" == some (.str "prompt_outputs_failed_validation") then
            .str "Workflow validation failed"
          else (ei.lookup "message").getD (.str "Workflow validation failed")
        | some other => .str (pyStr other)
        | none => .str "Workflow validation failed"
      else .str "Workflow validation failed"
    match (if o.any (fun p => p.1 == "node_errors") then
            match o.lookup "node_errors" with
            | some (.obj entries) =>
              Except.ok (entries.foldl (fun acc p => acc ++ formatNodeErrorLines p.1 p.2) [])
            | some _ => Except.error PyErr.attributeError
            | none => Except.ok []
           else (Except.ok [] : Except PyErr (List String))) with
    | .error e => e
    | .ok details =>
      if o.lookup "type" == some (.str "prompt_outputs_failed_validation") then
        let em2 : JValue := (o.lookup "message").getD (.str "Workflow validation failed")
        match (get_available_models oi).lookup "checkpoints" with
        | some (c :: cs) =>
          (match pyAddStr em2 "\n\nThis usually means a required model or parameter is not available." with
           | .error e => e
           | .ok em3 =>
             match pyJoinStrs ", " (c :: cs) with
             | .error e => e
             | .ok joined =>
               match pyAddStr em3 ("\nAvailable checkpoint models: " ++ joined) with
               | .error e => e
               | .ok em4 => .valueError (pyStr em4))
        | _ =>
          (match pyAddStr em2 "\n\nThis usually means a required model or parameter is not available." with
           | .error e => e
           | .ok em3 =>
             match pyAddStr em3 "\nNo checkpoint models appear to be available. Please check your model installation." with
             | .error e => e
             | .ok em4 => .valueError (pyStr em4))
      else
        if details.isEmpty then
          .valueError (pyStr em ++ ". Raw response: " ++ rawText)
        else
          let detailed := pyStr em ++ ":\n" ++
            "\n".intercalate (details.map (fun d => "• " ++ d))
          if details.any (fun d => strContains d "not in list" && strContains d "ckpt_name") then
            match (get_available_models oi).lookup "checkpoints" with
            | some (c :: cs) =>
              (match pyJoinStrs ", " (c :: cs) with
               | .error e => e
               | .ok joined =>
                 .valueError (detailed ++ "\n\nAvailable checkpoint models: " ++ joined))
            | _ =>
              .valueError (detailed ++ "\n\nNo checkpoint models appear to be available. Please check your model installation.")
          else .valueError detailed
  -- Non-dict JSON bodies escape with the exception Python raises on them:
  -- numbers, booleans and null fail the `"error" in error_data` membership
  -- test with a TypeError; strings and lists pass the membership tests but
  -- crash either at the `error_data[...]` indexing that a hit guards or,
  -- failing every hit, at `error_data.get("type")` (AttributeError).
  | .num _ => .typeError
  | .bool _ => .typeError
  | .null => .typeError
  | .str s =>
    if strContains s "error" then .typeError
    else if strContains s "node_errors" then .typeError
    else .attributeError
  | .list xs =>
    if xs.any (fun x => x == JValue.str "error") then .typeError
    else if xs.any (fun x => x == JValue.str "node_errors") then .typeError
    else .attributeError

/-- `queue_workflow`: the submit response is given by its HTTP status,
raw body text and parsed JSON body (`none` = unparseable); `oi` is the
object-info oracle consumed by `get_available_models`.  A 400 status
enters the validation-error decoding, any other error status raises via
`raise_for_status`, and a success returns the parsed body. -/
def queue_workflow (status : Nat) (bodyText : String) (bodyJson : Option JValue)
    (oi : Except String JValue) : Except PyErr JValue :=
  if status == 400 then
    match bodyJson with
    | none =>
      .error (.valueError ("ComfyUI validation failed (could not parse error response): " ++ bodyText))
    | some ed => .error (process400 ed bodyText oi)
  else if 400 ≤ status then .error (.httpError ("HTTP error " ++ toString status))
  else
    match bodyJson with
    | some b => .ok b
    | none => .error .jsonDecodeError

/-!
The handler itself (src/handler.py:641-1093).  Everything effectful is an
oracle in `HandlerEnv`.  Crucially, `validate_input` and
`normalize_workflow_for_caching` run before the `try` block, so exceptions
raised there propagate out of `handler`; the model therefore keeps the
workflow as raw JSON up to that point.
-/

/-- Python truthiness of a JSON value. -/
def pyTruthy : JValue → Bool
  | .str s => !s.isEmpty
  | .num n => n != 0
  | .bool b => b
  | .null => false
  | .list xs => !xs.isEmpty
  | .obj o => !o.isEmpty

/-- The job's `input` dictionary: the two keys `validate_input` reads
(`none` = key absent). -/
structure JobInput where
  workflow : Option JValue := none
  images : Option JValue := none

/-- The data `validate_input` returns on success. -/
structure ValidatedData where
  workflow : JValue
  images : Option JValue := none

/-- Left-to-right effectful map, stopping at the first raised exception —
the evaluation order of a Python `for` loop over the list. -/
def mapExcept (f : α → Except PyErr β) : List α → Except PyErr (List β)
  | [] => .ok []
  | x :: xs =>
    match f x with
    | .error e => .error e
    | .ok y =>
      match mapExcept f xs with
      | .error e => .error e
      | .ok ys => .ok (y :: ys)

/-- The short-circuiting `all("name" in image and "image" in image ...)`
generator: a non-container element raises `TypeError` when reached. -/
def imagesListOk : List JValue → Except PyErr Bool
  | [] => .ok true
  | x :: xs =>
    match pyIn "name" x with
    | .error e => .error e
    | .ok hn =>
      if hn then
        match pyIn "image" x with
        | .error e => .error e
        | .ok hi => if hi then imagesListOk xs else .ok false
      else .ok false

/-- `validate_input` (src/handler.py:132-171) for a dictionary job input:
a missing or null workflow is an error message, a malformed images list is
an error message, and a non-container images element raises. -/
def validate_input (ji : JobInput) : Except PyErr (ValidatedData ⊕ String) :=
  match ji.workflow with
  | none => .ok (.inr "Missing \x27workflow\x27 parameter")
  | some .null => .ok (.inr "Missing \x27workflow\x27 parameter")
  | some w =>
    match ji.images with
    | none => .ok (.inl { workflow := w })
    | some .null => .ok (.inl { workflow := w })
    | some (.list xs) =>
      match imagesListOk xs with
      | .error e => .error e
      | .ok true => .ok (.inl { workflow := w, images := some (.list xs) })
      | .ok false =>
        .ok (.inr "\x27images\x27 must be a list of objects with \x27name\x27 and \x27image\x27 keys")
    | some _ =>
      .ok (.inr "\x27images\x27 must be a list of objects with \x27name\x27 and \x27image\x27 keys")

/-- Pass-1 crash behaviour of `normalize_workflow_for_caching` on one raw
node value: a non-dict node crashes at `node_data.get` (`AttributeError`);
an unhashable `class_type` crashes at the `in standard_node_mapping` test
(`TypeError`); any other non-string `class_type` crashes at `.lower()`
(`AttributeError`). -/
def classTypeCheck : JValue → Except PyErr Unit
  | .obj o =>
    match o.lookup "class_type" with
    | none => .ok ()
    | some (.str _) => .ok ()
    | some (.list _) => .error .typeError
    | some (.obj _) => .error .typeError
    | some _ => .error .attributeError
  | _ => .error .attributeError

/-- Pass-2 decoding of one raw node into a `Node`: a non-dict `inputs`
value crashes at `.items()`. -/
def toNodeE : JValue → Except PyErr Node
  | .obj o =>
    let ct := match o.lookup "class_type" with | some (.str s) => some s | _ => none
    let ex := o.filter (fun kv => kv.1 != "class_type" && kv.1 != "inputs")
    match o.lookup "inputs" with
    | none => .ok { class_type := ct, inputs := none, extra := ex }
    | some (.obj ivs) => .ok { class_type := ct, inputs := some ivs, extra := ex }
    | some _ => .error .attributeError
  | _ => .error .attributeError

/-- Raw-to-typed decoding of a workflow dictionary, reproducing the crash
order of `normalize_workflow_for_caching`: the id-assignment pass touches
every node's `class_type` first, the rebuild pass then touches every
node's `inputs`. -/
def decodeWorkflow (nodes : List (String × JValue)) : Except PyErr Workflow :=
  match mapExcept (fun p => classTypeCheck p.2) nodes with
  | .error e => .error e
  | .ok _ => mapExcept (fun p => (toNodeE p.2).map (fun nd => (p.1, nd))) nodes

/-- Python `needle in container` where the needle is itself a value (the
`prompt_id not in history` test). -/
def pyInJValue (needle container : JValue) : Except PyErr Bool :=
  match container with
  | .obj o => .ok (o.any (fun p => jvBeq (.str p.1) needle))
  | .list xs => .ok (xs.any (fun x => jvBeq x needle))
  | .str s =>
    match needle with
    | .str sub => .ok (strContains s sub)
    | _ => .error .typeError
  | _ => .error .typeError

/-- Decoding of one manifest entry (`image_info` / `video_info`) from raw
JSON.  A falsy filename of any type takes the same missing-filename branch
as an absent one; a truthy non-string filename eventually crashes (at
`os.path.splitext`), a non-dict entry crashes at `.get`. -/
def decodeArtifact : JValue → Except PyErr ArtifactInfo
  | .obj o => do
    let fname ← match o.lookup "filename" with
      | none => pure none
      | some (.str s) => pure (some s)
      | some v => if pyTruthy v then .error .typeError else pure (none : Option String)
    let sub := match o.lookup "subfolder" with
      | none => ""
      | some v => pyStr v
    let ty := match o.lookup "type" with
      | none => none
      | some .null => none
      | some v => some (pyStr v)
    pure { filename := fname, subfolder := sub, type_ := ty }
  | _ => .error .attributeError

/-- Decoding of one node's output entry; non-dict node outputs and
non-list `images`/`gifs` values crash during membership tests, indexing or
iteration (the precise exception type varies, which only affects the
catch-all error text). -/
def decodeNodeOutput : JValue → Except PyErr NodeOutput
  | .obj o => do
    let imgs ← match o.lookup "images" with
      | none => pure none
      | some (.list xs) => (mapExcept decodeArtifact xs).map some
      | some _ => .error .typeError
    let gfs ← match o.lookup "gifs" with
      | none => pure none
      | some (.list xs) => (mapExcept decodeArtifact xs).map some
      | some _ => .error .typeError
    pure { images := imgs, gifs := gfs,
           other := (o.filter (fun kv => kv.1 != "images" && kv.1 != "gifs")).map Prod.fst }
  | _ => .error .typeError

/-- Decoding of the history's `outputs` dictionary. -/
def decodeOutputs : JValue → Except PyErr (List (String × NodeOutput))
  | .obj nodes => mapExcept (fun p => (decodeNodeOutput p.2).map (fun v => (p.1, v))) nodes
  | _ => .error .attributeError

/-- `str(e)` of an exception, for wrapped error messages
(approximated for the non-message-bearing kinds). -/
def pyErrText : PyErr → String
  | .typeError => "TypeError"
  | .attributeError => "AttributeError"
  | .valueError m => m
  | .jsonDecodeError => "Expecting value: line 1 column 1 (char 0)"
  | .wsError m => m
  | .httpError m => m
  | .streamClosed m => m

/-- All the effectful collaborators of one `handler` invocation. -/
structure HandlerEnv where
  serverReachable : Bool := true
  uploadErrors : List String := []
  wsConnect : Option PyErr := none
  queueStatus : Nat := 200
  queueBodyText : String := ""
  queueBodyJson : Option JValue := none
  objectInfo : Except String JValue := .error "unreachable"
  frames : List WsMsg := []
  streamEndErr : PyErr := .streamClosed "Connection closed and failed to reconnect"
  historyRes : Except PyErr JValue := .ok (.obj [])
  collect : CollectEnv

/-- How the `try` block of `handler` ended, short of an exception. -/
inductive TryOut where
  | earlyRet (r : HandlerResult)
  | done (outs : List OutputEntry) (errs : List String)

/-- The tail of the handler's `try` block after the monitor loop ends:
history fetch, the missing-prompt-id early returns, the no-outputs
warning, and output collection. -/
def tryHistory (env : HandlerEnv) (pid : JValue) (errs : List String) : Except PyErr TryOut :=
  match env.historyRes with
  | .error e => .error e
  | .ok h =>
    match pyInJValue pid h with
    | .error e => .error e
    | .ok false =>
      if errs.isEmpty then
        .ok (.earlyRet { error := some ("Prompt ID " ++ pyStr pid ++ " not found in history after execution.") })
      else
        .ok (.earlyRet
          { error := some "Job processing failed, prompt ID not found in history.",
            details := some (errs ++ ["Prompt ID " ++ pyStr pid ++ " not found in history after execution."]) })
    | .ok true =>
      match h with
      | .obj o =>
        let ph := ((o.find? (fun p => jvBeq (.str p.1) pid)).map Prod.snd).getD (.obj [])
        match ph with
        | .obj po =>
          let outsJ := (po.lookup "outputs").getD (.obj [])
          let errs2 := if pyTruthy outsJ then errs
            else if errs.isEmpty then ["No outputs found in history for prompt " ++ pyStr pid ++ "."]
            else errs
          match decodeOutputs outsJ with
          | .error e => .error e
          | .ok nodes =>
            let od := collectOutputsFrom env.collect errs2 nodes
            .ok (.done od.1 od.2)
        | _ => .error .attributeError
      | _ => .error .attributeError

/-- The body of the handler's `try` block: websocket connect, submission
(with the inner `try` re-raising everything as `ValueError` except
`ValueError` itself and `RequestException`), prompt-id extraction, the
monitor loop and then `tryHistory`.  Any raised exception is the `.error`
case, to be converted by the `except` clauses. -/
def tryPhase (env : HandlerEnv) : Except PyErr TryOut :=
  match env.wsConnect with
  | some e => .error e
  | none =>
    match queue_workflow env.queueStatus env.queueBodyText env.queueBodyJson env.objectInfo with
    | .error (.valueError m) => .error (.valueError m)
    | .error .jsonDecodeError => .error .jsonDecodeError
    | .error (.httpError m) => .error (.valueError ("Error queuing workflow: " ++ m))
    | .error e => .error (.valueError ("Unexpected error queuing workflow: " ++ pyErrText e))
    | .ok body =>
      let pidRes : Except PyErr JValue :=
        match body with
        | .obj o =>
          match o.lookup "prompt_id" with
          | some v =>
            if pyTruthy v then .ok v
            else .error (.valueError ("Missing \x27prompt_id\x27 in queue response: " ++ pyStr body))
          | none => .error (.valueError ("Missing \x27prompt_id\x27 in queue response: " ++ pyStr body))
        | _ => .error (.valueError "Unexpected error queuing workflow: AttributeError")
      match pidRes with
      | .error e => .error e
      | .ok pid =>
        match monitorLoop pid env.frames [] with
        | .ranOut _ => .error env.streamEndErr
        | .completedBreak errs _ => tryHistory env pid errs
        | .errorBreak errs _ =>
          if errs.isEmpty then
            .error (.valueError "Workflow monitoring loop exited without confirmation of completion or error.")
          else tryHistory env pid errs

/-- The `except` clauses (src/handler.py:1049-1064): every exception is
converted into an error dictionary (the JSON decode error is a
`ValueError` subclass and takes that branch). -/
def errorDict (e : PyErr) : HandlerResult :=
  match e with
  | .wsError m => { error := some ("WebSocket communication error: " ++ m) }
  | .streamClosed m => { error := some ("WebSocket communication error: " ++ m) }
  | .httpError m => { error := some ("HTTP communication error with ComfyUI: " ++ m) }
  | .valueError m => { error := some m }
  | .jsonDecodeError => { error := some "Expecting value: line 1 column 1 (char 0)" }
  | .typeError => { error := some "An unexpected error occurred: TypeError" }
  | .attributeError => { error := some "An unexpected error occurred: AttributeError" }

/-- Conversion of the try-block outcome into the handler's returned
dictionary. -/
def finishPhase (p : Except PyErr TryOut) : HandlerResult :=
  match p with
  | .error e => errorDict e
  | .ok (.earlyRet r) => r
  | .ok (.done od errs) => classifyResult od errs

/-- `if input_images:` — the upload step runs only for a truthy images
value. -/
def imagesPresent (vd : ValidatedData) : Bool :=
  match vd.images with
  | some v => pyTruthy v
  | none => false

/-- `handler(job)` for a job dictionary holding an `id` and an `input`.
Validation failures return error dictionaries; the workflow is then
normalized *outside* the `try` block (a malformed workflow value makes
this step raise, which propagates out of `handler` as the `.error` case);
afterwards server probing, uploads and the whole try/except machinery
produce a returned dictionary. -/
def handler (env : HandlerEnv) (_job_id : String) (ji : JobInput) : Except PyErr HandlerResult :=
  match validate_input ji with
  | .error e => .error e
  | .ok (.inr msg) => .ok { error := some msg }
  | .ok (.inl vd) =>
    match vd.workflow with
    | .obj rawNodes =>
      match decodeWorkflow rawNodes with
      | .error e => .error e
      | .ok wfT =>
        let _normalized := normalize_workflow_for_caching wfT
        if !env.serverReachable then
          .ok { error := some "ComfyUI server (127.0.0.1:8188) not reachable after multiple retries." }
        else if imagesPresent vd && !env.uploadErrors.isEmpty then
          .ok { error := some "Failed to upload one or more input images",
                details := some env.uploadErrors }
        else .ok (finishPhase (tryPhase env))
    | .list _ => .error .attributeError
    | .str _ => .error .attributeError
    | _ => .error .typeError

/-!
General-purpose lemmas.
-/

mutual

theorem jvBeq_refl : ∀ v : JValue, jvBeq v v = true
  | .str _ => by simp [jvBeq]
  | .num _ => by simp [jvBeq]
  | .bool _ => by simp [jvBeq]
  | .null => rfl
  | .list xs => by simp [jvBeq, jvBeqSeq_refl xs]
  | .obj kvs => by simp [jvBeq, jvBeqObjSeq_refl kvs]

theorem jvBeqSeq_refl : ∀ xs : List JValue, jvBeqSeq xs xs = true
  | [] => rfl
  | x :: xs => by simp [jvBeqSeq, jvBeq_refl x, jvBeqSeq_refl xs]

theorem jvBeqObjSeq_refl : ∀ kvs : List (String × JValue), jvBeqObjSeq kvs kvs = true
  | [] => rfl
  | kv :: kvs => by simp [jvBeqObjSeq, jvBeq_refl kv.2, jvBeqObjSeq_refl kvs]

end

theorem optSome_beq_self (v : JValue) : ((some v : Option JValue) == some v) = true := by
  show jvBeq v v = true
  exact jvBeq_refl v

theorem optNone_beq_none : ((none : Option JValue) == none) = true := rfl

theorem jv_beq_self (v : JValue) : (v == v) = true := jvBeq_refl v

/-!
C3 — collector result classification and partial failure.
-/

/-- Inline-persistence collection environment in which fetching `a.png`
succeeds and every other artifact fetch fails. -/
def envC3 : CollectEnv :=
  { bucketConfigured := false,
    fetchImage := fun fn _ _ => if fn == "a.png" then [137] else [],
    fetchVideo := fun _ _ _ => [],
    uploadS3 := fun _ => .error "no bucket",
    b64encode := fun _ => "iQ==" }

/-- A manifest with one node producing two images. -/
def manifestC3 : List (String × NodeOutput) :=
  [("9", { images := some [{ filename := some "a.png", type_ := some "output" },
                           { filename := some "b.png", type_ := some "output" }] })]

/-- C3: the final result classification: non-empty outputs with no errors
is a plain success carrying `images`; non-empty outputs with errors is a
partial failure surfacing both lists; empty outputs with errors is a hard
failure carrying the errors as `details`; empty outputs with no errors
reports `success_no_files` instead of a failure.  Moreover, one artifact
fetch failing while another succeeds yields exactly one collected output
and one error entry, classified as a partial failure, without aborting the
batch. -/
theorem c3_collector_classification : ∀ (od : List OutputEntry) (errs : List String),
    (od ≠ [] → errs = [] → classifyResult od errs = { images := some od })
    ∧ (od ≠ [] → errs ≠ [] → classifyResult od errs = { images := some od, errors := some errs })
    ∧ (od = [] → errs ≠ [] → classifyResult od errs =
        { error := some "Job processing failed", details := some errs })
    ∧ (od = [] → errs = [] → classifyResult od errs =
        { status := some "success_no_files", images := some [] })
    ∧ collectOutputs envC3 manifestC3 =
        ([⟨"a.png", "base64", "iQ=="⟩],
         ["Failed to fetch image data for b.png from /view endpoint."])
    ∧ classifyResult [⟨"a.png", "base64", "iQ=="⟩]
        ["Failed to fetch image data for b.png from /view endpoint."] =
        { images := some [⟨"a.png", "base64", "iQ=="⟩],
          errors := some ["Failed to fetch image data for b.png from /view endpoint."] } := by
  intro od errs
  refine ⟨?_, ?_, ?_, ?_, ?_, ?_⟩
  · intro h1 h2
    subst h2
    cases od with
    | nil => exact absurd rfl h1
    | cons a t => rfl
  · intro h1 h2
    cases od with
    | nil => exact absurd rfl h1
    | cons a t =>
      cases errs with
      | nil => exact absurd rfl h2
      | cons b u => rfl
  · intro h1 h2
    subst h1
    cases errs with
    | nil => exact absurd rfl h2
    | cons b u => rfl
  · intro h1 h2
    subst h1
    subst h2
    rfl
  · rfl
  · rfl

theorem c3_collector_classification_witness :
    classifyResult [⟨"a.png", "base64", "iQ=="⟩] [] =
      { images := some [⟨"a.png", "base64", "iQ=="⟩] }
    ∧ classifyResult [] ["boom"] =
      { error := some "Job processing failed", details := some ["boom"] } :=
  ⟨(c3_collector_classification [⟨"a.png", "base64", "iQ=="⟩] []).1 (List.cons_ne_nil _ _) rfl,
   (c3_collector_classification [] ["boom"]).2.2.1 rfl (List.cons_ne_nil _ _)⟩

/-!
C4 — monitor loop transitions.
-/

/-- The end-to-end monitor scenario: a `status` event, an `executing`
event for node 5, then `executing` with a null node for prompt id
`abc123`. -/
def c4Frames : List WsMsg :=
  [.frame (some (.str "status")) {},
   .frame (some (.str "executing")) { node := some (.num 5), prompt_id := some (.str "abc123") },
   .frame (some (.str "executing")) { node := none, prompt_id := some (.str "abc123") }]

/-- C4: an `executing` event with a null node and the job's prompt id
completes the monitor and ends the loop immediately; `executing` and
`execution_error` events carrying a different prompt id change nothing
and do not terminate the loop; and the submitted scenario (`status`,
`executing(node=5)`, `executing(node=null, prompt_id="abc123")`) ends in
`Completed`. -/
theorem c4_monitor_transitions (pid : JValue) (rest : List WsMsg) (errs : List String)
    (d : EventData) (hdiff : (d.prompt_id == some pid) = false) :
    monitorLoop pid
        (.frame (some (.str "executing")) { node := none, prompt_id := some pid } :: rest) errs
      = .completedBreak errs rest
    ∧ monitorLoop pid (.frame (some (.str "executing")) d :: rest) errs
      = monitorLoop pid rest errs
    ∧ monitorLoop pid (.frame (some (.str "execution_error")) d :: rest) errs
      = monitorLoop pid rest errs
    ∧ monitorOutcome (.str "abc123") c4Frames = .completed := by
  refine ⟨?_, ?_, ?_, ?_⟩
  · simp [monitorLoop, classifyFrame, optSome_beq_self, optNone_beq_none, jv_beq_self]
  · simp [monitorLoop, classifyFrame, hdiff]
  · simp [monitorLoop, classifyFrame, hdiff]
  · rfl

theorem c4_monitor_transitions_witness :
    ((some (JValue.str "other") : Option JValue) == some (.str "abc123")) = false
    ∧ monitorLoop (.str "abc123")
        [.frame (some (.str "executing"))
          { node := some (.num 7), prompt_id := some (.str "other") }] []
      = monitorLoop (.str "abc123") [] [] :=
  ⟨rfl, (c4_monitor_transitions (.str "abc123") [] []
      { node := some (.num 7), prompt_id := some (.str "other") } rfl).2.1⟩

/-!
C5 — reconnection policy.
-/

theorem reconnectLoop_exhausted_of_all_fail (probe : Nat → Bool)
    (connect : Nat → Except String Nat) (errf : Nat → String) :
    ∀ (rem i : Nat) (last : String),
      (∀ j, i ≤ j → j < i + rem → probe j = true) →
      (∀ j, i ≤ j → j < i + rem → connect j = .error (errf j)) →
      0 < rem →
      reconnectLoop probe connect i rem last = .exhausted (errf (i + rem - 1)) := by
  intro rem
  induction rem with
  | zero => intro i last _ _ h0; exact absurd h0 (by omega)
  | succ n ih =>
    intro i last hp hc _
    have hpi : probe i = true := hp i (Nat.le_refl i) (by omega)
    have hci : connect i = .error (errf i) := hc i (Nat.le_refl i) (by omega)
    rw [reconnectLoop, hpi]
    simp only [if_true, hci]
    cases n with
    | zero =>
      rw [reconnectLoop]
      have h0 : i + (0 + 1) - 1 = i := by omega
      rw [h0]
    | succ m =>
      have hrec := ih (i + 1) (errf i)
        (fun j hj1 hj2 => hp j (by omega) (by omega))
        (fun j hj1 hj2 => hc j (by omega) (by omega)) (by omega)
      rw [hrec]
      have : i + 1 + (m + 1) - 1 = i + (m + 1 + 1) - 1 := by omega
      rw [this]

theorem reconnectLoop_connected_inv (probe : Nat → Bool) (connect : Nat → Except String Nat) :
    ∀ (rem i : Nat) (last : String) (s j : Nat),
      reconnectLoop probe connect i rem last = .connected s j →
      i ≤ j ∧ j < i + rem ∧ probe j = true ∧ connect j = .ok s := by
  intro rem
  induction rem with
  | zero =>
    intro i last s j h
    rw [reconnectLoop] at h
    exact ReconnectOutcome.noConfusion h
  | succ n ih =>
    intro i last s j h
    rw [reconnectLoop] at h
    split at h
    next hp =>
      split at h
      next s0 hcon =>
        cases h
        exact ⟨Nat.le_refl _, by omega, hp, hcon⟩
      next e hcon =>
        have := ih (i + 1) e s j h
        exact ⟨by omega, by omega, this.2.2⟩
    next hp =>
      exact ReconnectOutcome.noConfusion h

/-- C5: the reconnect routine probes the engine before every attempt;
with the engine unreachable at the outset it aborts with the terminal
unreachable error after zero connect attempts; with the engine reachable
throughout and every one of the `max_attempts` connect attempts failing
it raises the connection-closed exception carrying the last error; and it
returns a connected socket only when some in-budget attempt succeeded
while the engine was reachable. -/
theorem c5_reconnect_policy (probe : Nat → Bool) (connect : Nat → Except String Nat)
    (max_attempts : Nat) (init : String) (errf : Nat → String) (hmax : 0 < max_attempts) :
    (probe 0 = false →
      attemptWebsocketReconnect probe connect max_attempts init = .unreachableAbort 0)
    ∧ ((∀ i, i < max_attempts → probe i = true) →
       (∀ i, i < max_attempts → connect i = .error (errf i)) →
        attemptWebsocketReconnect probe connect max_attempts init
          = .exhausted (errf (max_attempts - 1)))
    ∧ (∀ s j, attemptWebsocketReconnect probe connect max_attempts init = .connected s j →
        j < max_attempts ∧ probe j = true ∧ connect j = .ok s) := by
  refine ⟨?_, ?_, ?_⟩
  · intro hp0
    cases max_attempts with
    | zero => exact absurd hmax (by omega)
    | succ m =>
      rw [attemptWebsocketReconnect, reconnectLoop, hp0]
      simp
  · intro hp hc
    have := reconnectLoop_exhausted_of_all_fail probe connect errf max_attempts 0 init
      (fun j _ hj2 => hp j (by omega)) (fun j _ hj2 => hc j (by omega)) hmax
    rw [attemptWebsocketReconnect, this]
    have h0 : 0 + max_attempts - 1 = max_attempts - 1 := by omega
    rw [h0]
  · intro s j h
    have := reconnectLoop_connected_inv probe connect max_attempts 0 init s j h
    exact ⟨by omega, this.2.2⟩

theorem c5_reconnect_policy_witness :
    (0 : Nat) < 5
    ∧ attemptWebsocketReconnect (fun _ => false) (fun _ => .error "refused") 5 "closed"
        = .unreachableAbort 0
    ∧ attemptWebsocketReconnect (fun _ => true) (fun _ => .error "refused") 3 "closed"
        = .exhausted "refused" :=
  ⟨by decide,
   (c5_reconnect_policy (fun _ => false) (fun _ => .error "refused") 5 "closed"
      (fun _ => "refused") (by decide)).1 rfl,
   (c5_reconnect_policy (fun _ => true) (fun _ => .error "refused") 3 "closed"
      (fun _ => "refused") (by decide)).2.1 (fun _ _ => rfl) (fun _ _ => rfl)⟩

/-!
C1 — canonicalization does not assign distinct ids to every node.
-/

/-- A workflow with two `KSampler` nodes — a perfectly ordinary graph
(two sampling passes). -/
def twoKSamplers : Workflow :=
  [("3", { class_type := some "KSampler", inputs := some [] }),
   ("4", { class_type := some "KSampler", inputs := some [] })]

/-- C1: evaluating the canonicalizer at a workflow with two nodes of the
same standard-mapped type: both receive the id `ksampler_1` (the old-id
to new-id table is not injective), and the rebuilt graph has one node
where the input had two — the second node silently overwrites the
first. -/
theorem c1_duplicate_standard_nodes_collapse :
    buildTable twoKSamplers = [("3", "ksampler_1"), ("4", "ksampler_1")]
    ∧ (normalize_workflow_for_caching twoKSamplers).length = 1
    ∧ twoKSamplers.length = 2 :=
  ⟨rfl, rfl, rfl⟩

/-!
C2 — canonicalization is not idempotent.
-/

/-- A workflow whose class types `"Foo Bar"` and `"Foo_Bar"` normalize to
the same base name `foo_bar`. -/
def collidingClassTypes : Workflow :=
  [("a", { class_type := some "Foo Bar" }),
   ("b", { class_type := some "Foo Bar" }),
   ("c", { class_type := some "Foo_Bar" })]

/-- C2: evaluating the canonicalizer twice at `collidingClassTypes`: the
first pass produces a two-node graph (ids `foo_bar_1`, `foo_bar_2`), but
canonicalizing that output again collapses it to a single node, so
`canonicalize (canonicalize G) ≠ canonicalize G`. -/
theorem c2_canonicalize_not_idempotent :
    (normalize_workflow_for_caching collidingClassTypes).length = 2
    ∧ (normalize_workflow_for_caching
        (normalize_workflow_for_caching collidingClassTypes)).length = 1
    ∧ normalize_workflow_for_caching (normalize_workflow_for_caching collidingClassTypes)
      ≠ normalize_workflow_for_caching collidingClassTypes := by
  refine ⟨rfl, rfl, ?_⟩
  intro h
  have h2 := congrArg List.length h
  rw [show (normalize_workflow_for_caching
        (normalize_workflow_for_caching collidingClassTypes)).length = 1 from rfl,
      show (normalize_workflow_for_caching collidingClassTypes).length = 2 from rfl] at h2
  exact absurd h2 (by decide)

/-!
C6 — temp artifacts never contribute outputs; an all-temp manifest yields
`success_no_files`.
-/

/-- Removal of the `type="temp"` entries of an `images` list. -/
def dropTempImages (l : List ArtifactInfo) : List ArtifactInfo :=
  l.filter (fun i => !(i.type_ == some "temp"))

/-- Removal of the `type="temp"` entries of a `gifs` list (the declared
type defaults to `"output"` there). -/
def dropTempGifs (l : List ArtifactInfo) : List ArtifactInfo :=
  l.filter (fun i => !(i.type_.getD "output" == "temp"))

/-- A node's outputs with all temp entries removed. -/
def dropTempNode (no : NodeOutput) : NodeOutput :=
  { images := no.images.map dropTempImages,
    gifs := no.gifs.map dropTempGifs,
    other := no.other }

/-- Whether every artifact entry of a node is a temp entry. -/
def allTempNode (no : NodeOutput) : Bool :=
  (match no.images with
   | some l => l.all (fun i => i.type_ == some "temp")
   | none => true)
  && (match no.gifs with
      | some l => l.all (fun i => i.type_.getD "output" == "temp")
      | none => true)

theorem processImage_temp (env : CollectEnv) (nid : String)
    (acc : List OutputEntry × List String) (info : ArtifactInfo)
    (h : (info.type_ == some "temp") = true) :
    processImage env nid acc info = acc := by
  obtain ⟨outs, errs⟩ := acc
  simp [processImage, h]

theorem processVideo_temp (env : CollectEnv) (nid : String)
    (acc : List OutputEntry × List String) (info : ArtifactInfo)
    (h : (info.type_.getD "output" == "temp") = true) :
    processVideo env nid acc info = acc := by
  obtain ⟨outs, errs⟩ := acc
  simp [processVideo, h]

theorem foldl_processImage_dropTemp (env : CollectEnv) (nid : String) :
    ∀ (l : List ArtifactInfo) (acc : List OutputEntry × List String),
      (dropTempImages l).foldl (processImage env nid) acc = l.foldl (processImage env nid) acc := by
  intro l
  induction l with
  | nil => intro acc; rfl
  | cons x xs ih =>
    intro acc
    by_cases hx : (x.type_ == some "temp") = true
    · have hdrop : dropTempImages (x :: xs) = dropTempImages xs := by
        simp [dropTempImages, hx]
      rw [hdrop, List.foldl_cons, processImage_temp env nid acc x hx, ih]
    · have hx2 : (x.type_ == some "temp") = false := by simpa using hx
      have hkeep : dropTempImages (x :: xs) = x :: dropTempImages xs := by
        simp [dropTempImages, hx2]
      rw [hkeep, List.foldl_cons, List.foldl_cons, ih]

theorem foldl_processVideo_dropTemp (env : CollectEnv) (nid : String) :
    ∀ (l : List ArtifactInfo) (acc : List OutputEntry × List String),
      (dropTempGifs l).foldl (processVideo env nid) acc = l.foldl (processVideo env nid) acc := by
  intro l
  induction l with
  | nil => intro acc; rfl
  | cons x xs ih =>
    intro acc
    by_cases hx : (x.type_.getD "output" == "temp") = true
    · have hdrop : dropTempGifs (x :: xs) = dropTempGifs xs := by
        simp [dropTempGifs, hx]
      rw [hdrop, List.foldl_cons, processVideo_temp env nid acc x hx, ih]
    · have hx2 : (x.type_.getD "output" == "temp") = false := by simpa using hx
      have hkeep : dropTempGifs (x :: xs) = x :: dropTempGifs xs := by
        simp [dropTempGifs, hx2]
      rw [hkeep, List.foldl_cons, List.foldl_cons, ih]

theorem processNode_dropTemp (env : CollectEnv) (acc : List OutputEntry × List String)
    (nid : String) (no : NodeOutput) :
    processNode env acc (nid, dropTempNode no) = processNode env acc (nid, no) := by
  unfold processNode dropTempNode
  cases no.images with
  | none =>
    cases no.gifs with
    | none => rfl
    | some g => simp [foldl_processVideo_dropTemp]
  | some l =>
    cases no.gifs with
    | none => simp [foldl_processImage_dropTemp]
    | some g => simp [foldl_processImage_dropTemp, foldl_processVideo_dropTemp]

theorem foldl_processNode_dropTemp (env : CollectEnv) :
    ∀ (outputs : List (String × NodeOutput)) (acc : List OutputEntry × List String),
      (outputs.map (fun p => (p.1, dropTempNode p.2))).foldl (processNode env) acc
        = outputs.foldl (processNode env) acc := by
  intro outputs
  induction outputs with
  | nil => intro acc; rfl
  | cons p ps ih =>
    intro acc
    rw [List.map_cons, List.foldl_cons, List.foldl_cons, processNode_dropTemp, ih]

theorem foldl_processImage_allTemp (env : CollectEnv) (nid : String) :
    ∀ (l : List ArtifactInfo) (acc : List OutputEntry × List String),
      l.all (fun i => i.type_ == some "temp") = true →
      l.foldl (processImage env nid) acc = acc := by
  intro l
  induction l with
  | nil => intro acc _; rfl
  | cons x xs ih =>
    intro acc hall
    rw [List.all_cons, Bool.and_eq_true] at hall
    rw [List.foldl_cons, processImage_temp env nid acc x hall.1, ih acc hall.2]

theorem foldl_processVideo_allTemp (env : CollectEnv) (nid : String) :
    ∀ (l : List ArtifactInfo) (acc : List OutputEntry × List String),
      l.all (fun i => i.type_.getD "output" == "temp") = true →
      l.foldl (processVideo env nid) acc = acc := by
  intro l
  induction l with
  | nil => intro acc _; rfl
  | cons x xs ih =>
    intro acc hall
    rw [List.all_cons, Bool.and_eq_true] at hall
    rw [List.foldl_cons, processVideo_temp env nid acc x hall.1, ih acc hall.2]

theorem processNode_allTemp (env : CollectEnv) (acc : List OutputEntry × List String)
    (nid : String) (no : NodeOutput) (hall : allTempNode no = true) :
    processNode env acc (nid, no) = acc := by
  unfold allTempNode at hall
  rw [Bool.and_eq_true] at hall
  unfold processNode
  cases him : no.images with
  | none =>
    cases hg : no.gifs with
    | none => rfl
    | some g =>
      rw [him, hg] at hall
      simpa using foldl_processVideo_allTemp env nid g acc hall.2
  | some l =>
    cases hg : no.gifs with
    | none =>
      rw [him, hg] at hall
      simpa using foldl_processImage_allTemp env nid l acc hall.1
    | some g =>
      rw [him, hg] at hall
      simp only []
      rw [foldl_processImage_allTemp env nid l acc hall.1,
          foldl_processVideo_allTemp env nid g acc hall.2]

theorem foldl_processNode_allTemp (env : CollectEnv) :
    ∀ (outputs : List (String × NodeOutput)) (acc : List OutputEntry × List String),
      outputs.all (fun p => allTempNode p.2) = true →
      outputs.foldl (processNode env) acc = acc := by
  intro outputs
  induction outputs with
  | nil => intro acc _; rfl
  | cons p ps ih =>
    intro acc hall
    rw [List.all_cons, Bool.and_eq_true] at hall
    rw [List.foldl_cons, processNode_allTemp env acc p.1 p.2 hall.1, ih acc hall.2]

/-- C6: a `type="temp"` artifact entry (in either the `images` or the
`gifs` list) never contributes a collected output or an error — deleting
all temp entries from a manifest leaves the collector's result unchanged
— and a manifest consisting solely of temp artifacts, processed with no
prior errors, collects nothing and is classified `success_no_files`. -/
theorem c6_temp_artifacts_excluded (env : CollectEnv) :
    (∀ outputs : List (String × NodeOutput),
      collectOutputs env (outputs.map (fun p => (p.1, dropTempNode p.2)))
        = collectOutputs env outputs)
    ∧ (∀ outputs : List (String × NodeOutput),
        outputs.all (fun p => allTempNode p.2) = true →
        collectOutputs env outputs = ([], [])
        ∧ classifyResult (collectOutputs env outputs).1 (collectOutputs env outputs).2
          = { status := some "success_no_files", images := some [] }) := by
  constructor
  · intro outputs
    unfold collectOutputs collectOutputsFrom
    exact foldl_processNode_dropTemp env outputs ([], [])
  · intro outputs hall
    have hz : collectOutputs env outputs = ([], []) := by
      unfold collectOutputs collectOutputsFrom
      exact foldl_processNode_allTemp env outputs ([], []) hall
    exact ⟨hz, by rw [hz]; rfl⟩

/-- A trivial collection environment for evaluating the C6 theorem. -/
def envC6 : CollectEnv :=
  { bucketConfigured := false,
    fetchImage := fun _ _ _ => [],
    fetchVideo := fun _ _ _ => [],
    uploadS3 := fun _ => .error "unused",
    b64encode := fun _ => "" }

theorem c6_temp_artifacts_excluded_witness :
    collectOutputs envC6
        [("7", { images := some [{ filename := some "t.png", type_ := some "temp" }],
                 gifs := some [{ filename := some "t.webp", type_ := some "temp" }] })]
      = ([], []) :=
  ((c6_temp_artifacts_excluded envC6).2
    [("7", { images := some [{ filename := some "t.png", type_ := some "temp" }],
             gifs := some [{ filename := some "t.webp", type_ := some "temp" }] })]
    rfl).1

/-!
C9 — persistence mode is uniform within a job.
-/

/-- The persistence kind every collected output of a job carries. -/
def persistKind (env : CollectEnv) : String :=
  if env.bucketConfigured then "s3_url" else "base64"

theorem processImage_fst (env : CollectEnv) (nid : String)
    (acc : List OutputEntry × List String) (info : ArtifactInfo) :
    (processImage env nid acc info).1 = acc.1
    ∨ ∃ fn dat, (processImage env nid acc info).1 = acc.1 ++ [⟨fn, persistKind env, dat⟩] := by
  obtain ⟨outs, errs⟩ := acc
  by_cases h1 : (info.type_ == some "temp") = true
  · left; simp [processImage, h1]
  · have h1f : (info.type_ == some "temp") = false := by simpa using h1
    by_cases h2 : (info.filename == none || info.filename == some "") = true
    · left; simp [processImage, h1f, h2]
    · have h2f : (info.filename == none || info.filename == some "") = false := by simpa using h2
      by_cases h3 : (env.fetchImage (info.filename.getD "") info.subfolder info.type_).isEmpty = true
      · left; simp [processImage, h1f, h2f, h3]
      · have h3f : (env.fetchImage (info.filename.getD "") info.subfolder info.type_).isEmpty = false := by
          simpa using h3
        by_cases h4 : env.bucketConfigured = true
        · cases h5 : env.uploadS3 (info.filename.getD "") with
          | ok url =>
            right
            exact ⟨info.filename.getD "", url,
              by simp [processImage, persistKind, h1f, h2f, h3f, h4, h5]⟩
          | error e => left; simp [processImage, h1f, h2f, h3f, h4, h5]
        · have h4f : env.bucketConfigured = false := by simpa using h4
          right
          exact ⟨info.filename.getD "",
            env.b64encode (env.fetchImage (info.filename.getD "") info.subfolder info.type_),
            by simp [processImage, persistKind, h1f, h2f, h3f, h4f]⟩

theorem processVideo_fst (env : CollectEnv) (nid : String)
    (acc : List OutputEntry × List String) (info : ArtifactInfo) :
    (processVideo env nid acc info).1 = acc.1
    ∨ ∃ fn dat, (processVideo env nid acc info).1 = acc.1 ++ [⟨fn, persistKind env, dat⟩] := by
  obtain ⟨outs, errs⟩ := acc
  by_cases h1 : (info.type_.getD "output" == "temp") = true
  · left; simp [processVideo, h1]
  · have h1f : (info.type_.getD "output" == "temp") = false := by simpa using h1
    by_cases h2 : (info.filename == none || info.filename == some "") = true
    · left; simp [processVideo, h1f, h2]
    · have h2f : (info.filename == none || info.filename == some "") = false := by simpa using h2
      by_cases h3 : (env.fetchVideo (info.filename.getD "") info.subfolder (info.type_.getD "output")).isEmpty = true
      · left; simp [processVideo, h1f, h2f, h3]
      · have h3f : (env.fetchVideo (info.filename.getD "") info.subfolder (info.type_.getD "output")).isEmpty = false := by
          simpa using h3
        by_cases h4 : env.bucketConfigured = true
        · cases h5 : env.uploadS3 (info.filename.getD "") with
          | ok url =>
            right
            exact ⟨info.filename.getD "", url,
              by simp [processVideo, persistKind, h1f, h2f, h3f, h4, h5]⟩
          | error e => left; simp [processVideo, h1f, h2f, h3f, h4, h5]
        · have h4f : env.bucketConfigured = false := by simpa using h4
          right
          exact ⟨info.filename.getD "",
            env.b64encode (env.fetchVideo (info.filename.getD "") info.subfolder (info.type_.getD "output")),
            by simp [processVideo, persistKind, h1f, h2f, h3f, h4f]⟩

theorem mem_processImage_fst (env : CollectEnv) (nid : String)
    (acc : List OutputEntry × List String) (info : ArtifactInfo) (e : OutputEntry)
    (he : e ∈ (processImage env nid acc info).1) :
    e ∈ acc.1 ∨ e.type_ = persistKind env := by
  rcases processImage_fst env nid acc info with h | ⟨fn, dat, h⟩
  · rw [h] at he; exact .inl he
  · rw [h] at he
    rcases List.mem_append.mp he with h2 | h2
    · exact .inl h2
    · right
      have : e = ⟨fn, persistKind env, dat⟩ := List.mem_singleton.mp h2
      rw [this]

theorem mem_processVideo_fst (env : CollectEnv) (nid : String)
    (acc : List OutputEntry × List String) (info : ArtifactInfo) (e : OutputEntry)
    (he : e ∈ (processVideo env nid acc info).1) :
    e ∈ acc.1 ∨ e.type_ = persistKind env := by
  rcases processVideo_fst env nid acc info with h | ⟨fn, dat, h⟩
  · rw [h] at he; exact .inl he
  · rw [h] at he
    rcases List.mem_append.mp he with h2 | h2
    · exact .inl h2
    · right
      have : e = ⟨fn, persistKind env, dat⟩ := List.mem_singleton.mp h2
      rw [this]

theorem mem_foldl_processImage (env : CollectEnv) (nid : String) (e : OutputEntry) :
    ∀ (l : List ArtifactInfo) (acc : List OutputEntry × List String),
      e ∈ (l.foldl (processImage env nid) acc).1 → e ∈ acc.1 ∨ e.type_ = persistKind env := by
  intro l
  induction l with
  | nil => intro acc h; exact .inl h
  | cons x xs ih =>
    intro acc h
    rw [List.foldl_cons] at h
    rcases ih (processImage env nid acc x) h with h2 | h2
    · exact mem_processImage_fst env nid acc x e h2
    · exact .inr h2

theorem mem_foldl_processVideo (env : CollectEnv) (nid : String) (e : OutputEntry) :
    ∀ (l : List ArtifactInfo) (acc : List OutputEntry × List String),
      e ∈ (l.foldl (processVideo env nid) acc).1 → e ∈ acc.1 ∨ e.type_ = persistKind env := by
  intro l
  induction l with
  | nil => intro acc h; exact .inl h
  | cons x xs ih =>
    intro acc h
    rw [List.foldl_cons] at h
    rcases ih (processVideo env nid acc x) h with h2 | h2
    · exact mem_processVideo_fst env nid acc x e h2
    · exact .inr h2

theorem mem_processNode_fst (env : CollectEnv) (acc : List OutputEntry × List String)
    (p : String × NodeOutput) (e : OutputEntry)
    (he : e ∈ (processNode env acc p).1) :
    e ∈ acc.1 ∨ e.type_ = persistKind env := by
  unfold processNode at he
  cases him : p.2.images with
  | none =>
    cases hg : p.2.gifs with
    | none => rw [him, hg] at he; exact .inl he
    | some g =>
      rw [him, hg] at he
      exact mem_foldl_processVideo env p.1 e g acc he
  | some l =>
    cases hg : p.2.gifs with
    | none =>
      rw [him, hg] at he
      exact mem_foldl_processImage env p.1 e l acc he
    | some g =>
      rw [him, hg] at he
      rcases mem_foldl_processVideo env p.1 e g _ he with h2 | h2
      · exact mem_foldl_processImage env p.1 e l acc h2
      · exact .inr h2

theorem mem_foldl_processNode (env : CollectEnv) (e : OutputEntry) :
    ∀ (outputs : List (String × NodeOutput)) (acc : List OutputEntry × List String),
      e ∈ (outputs.foldl (processNode env) acc).1 → e ∈ acc.1 ∨ e.type_ = persistKind env := by
  intro outputs
  induction outputs with
  | nil => intro acc h; exact .inl h
  | cons p ps ih =>
    intro acc h
    rw [List.foldl_cons] at h
    rcases ih (processNode env acc p) h with h2 | h2
    · exact mem_processNode_fst env acc p e h2
    · exact .inr h2

/-- C9: persistence mode is uniform per job: every entry the collector
produces carries kind `s3_url` when the external-storage endpoint is
configured and kind `base64` when it is not — the two kinds are never
mixed within one job's outputs. -/
theorem c9_persistence_uniform (env : CollectEnv) (outputs : List (String × NodeOutput))
    (e : OutputEntry) (he : e ∈ (collectOutputs env outputs).1) :
    e.type_ = (if env.bucketConfigured then "s3_url" else "base64") := by
  have := mem_foldl_processNode env e outputs ([], []) he
  rcases this with h | h
  · exact absurd h (by simp)
  · exact h

/-- An external-storage collection environment for evaluating C9. -/
def envC9 : CollectEnv :=
  { bucketConfigured := true,
    fetchImage := fun _ _ _ => [1],
    fetchVideo := fun _ _ _ => [1],
    uploadS3 := fun fn => .ok ("https://bucket/" ++ fn),
    b64encode := fun _ => "AQ==" }

/-- The single-image manifest used to evaluate C9. -/
def manifestC9 : List (String × NodeOutput) :=
  [("1", { images := some [{ filename := some "x.png", type_ := some "output" }] })]

theorem c9_persistence_uniform_witness :
    (⟨"x.png", "s3_url", "https://bucket/x.png"⟩ : OutputEntry)
        ∈ (collectOutputs envC9 manifestC9).1
    ∧ (⟨"x.png", "s3_url", "https://bucket/x.png"⟩ : OutputEntry).type_
        = (if envC9.bucketConfigured then "s3_url" else "base64") :=
  ⟨by decide, c9_persistence_uniform envC9 manifestC9 _ (by decide)⟩

/-!
C8 — canonicalization preserves reference closure.
-/

theorem assignIds_length : ∀ (wf : Workflow) (cs : List (String × Nat)),
    (assignIds wf cs).length = wf.length := by
  intro wf
  induction wf with
  | nil => intro cs; rfl
  | cons p ps ih =>
    obtain ⟨pid, pnd⟩ := p
    intro cs
    simp only [assignIds]
    rcases hn : newIdFor (classTypeOf pnd) cs with ⟨nid, cs2⟩
    simp [ih]

theorem lookup_zip_mem : ∀ (ks vs : List String) (k v : String),
    (ks.zip vs).lookup k = some v → v ∈ vs := by
  intro ks
  induction ks with
  | nil => intro vs k v h; simp [List.lookup] at h
  | cons a as ih =>
    intro vs k v h
    cases vs with
    | nil => simp [List.lookup] at h
    | cons b bs =>
      rw [List.zip_cons_cons] at h
      by_cases hk : (k == a) = true
      · rw [List.lookup, hk] at h
        cases h
        exact List.mem_cons_self _ _
      · have hk2 : (k == a) = false := by simpa using hk
        rw [List.lookup, hk2] at h
        exact List.mem_cons_of_mem _ (ih bs k v h)

theorem lookup_zip_isSome : ∀ (ks vs : List String) (k : String),
    k ∈ ks → ks.length = vs.length → ∃ v, (ks.zip vs).lookup k = some v := by
  intro ks
  induction ks with
  | nil => intro vs k h _; simp at h
  | cons a as ih =>
    intro vs k h hlen
    cases vs with
    | nil => simp at hlen
    | cons b bs =>
      rw [List.zip_cons_cons]
      by_cases hk : (k == a) = true
      · exact ⟨b, by rw [List.lookup, hk]⟩
      · have hk2 : (k == a) = false := by simpa using hk
        have hne : k ≠ a := by
          intro hEq
          rw [hEq] at hk2
          simp at hk2
        have hmem : k ∈ as := by
          rcases List.mem_cons.mp h with h1 | h1
          · exact absurd h1 hne
          · exact h1
        obtain ⟨v, hv⟩ := ih bs k hmem (by simpa using hlen)
        exact ⟨v, by rw [List.lookup, hk2]; exact hv⟩

theorem map_snd_zip_eq_of_length {α β : Type} :
    ∀ (l1 : List α) (l2 : List β), l1.length = l2.length →
      (l1.zip l2).map Prod.snd = l2 := by
  intro l1
  induction l1 with
  | nil =>
    intro l2 h
    cases l2 with
    | nil => rfl
    | cons b bs => simp at h
  | cons a as ih =>
    intro l2 h
    cases l2 with
    | nil => simp at h
    | cons b bs =>
      rw [List.zip_cons_cons, List.map_cons, ih bs (by simpa using h)]

theorem mem_upsert_keys_self {α : Type} (d : List (String × α)) (k : String) (v : α) :
    k ∈ (upsert d k v).map Prod.fst := by
  unfold upsert
  by_cases h : d.any (fun p => p.1 == k) = true
  · rw [if_pos h]
    obtain ⟨p, hp, hpk⟩ := List.any_eq_true.mp h
    refine List.mem_map.mpr ⟨(k, v), List.mem_map.mpr ⟨p, hp, ?_⟩, rfl⟩
    simp [hpk]
  · rw [if_neg h]
    rw [List.map_append]
    exact List.mem_append_right _ (by simp)

theorem mem_upsert_keys_of_mem {α : Type} (d : List (String × α)) (k k0 : String) (v : α)
    (h : k0 ∈ d.map Prod.fst) : k0 ∈ (upsert d k v).map Prod.fst := by
  unfold upsert
  by_cases ha : d.any (fun p => p.1 == k) = true
  · rw [if_pos ha]
    obtain ⟨p, hp, hpk⟩ := List.mem_map.mp h
    by_cases hk : (p.1 == k) = true
    · refine List.mem_map.mpr ⟨(k, v), List.mem_map.mpr ⟨p, hp, by simp [hk]⟩, ?_⟩
      have hpk2 : p.1 = k := eq_of_beq hk
      rw [← hpk, ← hpk2]
    · refine List.mem_map.mpr ⟨p, List.mem_map.mpr ⟨p, hp, ?_⟩, hpk⟩
      simp [hk]
  · rw [if_neg ha]
    rw [List.map_append]
    exact List.mem_append_left _ h

theorem mem_foldl_upsert_keys {α : Type} (key : α → String) (val : α → Node) :
    ∀ (l : List α) (acc : Workflow) (k : String),
      (k ∈ acc.map Prod.fst ∨ k ∈ l.map key) →
      k ∈ ((l.foldl (fun a x => upsert a (key x) (val x)) acc).map Prod.fst) := by
  intro l
  induction l with
  | nil =>
    intro acc k h
    rcases h with h | h
    · exact h
    · simp at h
  | cons x xs ih =>
    intro acc k h
    rw [List.foldl_cons]
    rcases h with h | h
    · exact ih _ k (.inl (mem_upsert_keys_of_mem acc (key x) k (val x) h))
    · rw [List.map_cons] at h
      rcases List.mem_cons.mp h with h1 | h1
      · subst h1
        exact ih _ (key x) (.inl (mem_upsert_keys_self acc (key x) (val x)))
      · exact ih _ k (.inr h1)

/-- C8: canonicalization preserves reference closure.  For every node of
the workflow and every input value that is structurally a reference pair
`[id, slot]`, if `str(id)` resolves to a node of the input graph then the
rewritite maps it to `[newId, slot]` where `newId` is the id of a node
present in the canonicalized graph. -/
theorem c8_reference_closure (wf : Workflow) (_hkeys : (wf.map Prod.fst).Nodup)
    (oid : String) (nd : Node) (ins : List (String × JValue)) (k : String) (a b : JValue)
    (_hmem : (oid, nd) ∈ wf) (_hins : nd.inputs = some ins) (_hkv : (k, .list [a, b]) ∈ ins)
    (hres : pyStr a ∈ wf.map Prod.fst) :
    ∃ nid, rewriteInput (buildTable wf) (.list [a, b]) = .list [.str nid, b]
      ∧ nid ∈ (normalize_workflow_for_caching wf).map Prod.fst := by
  have hlen : (wf.map Prod.fst).length = (assignIds wf []).length := by
    rw [assignIds_length, List.length_map]
  obtain ⟨nid, hnid⟩ := lookup_zip_isSome (wf.map Prod.fst) (assignIds wf []) (pyStr a) hres hlen
  have hnid2 : (buildTable wf).lookup (pyStr a) = some nid := hnid
  refine ⟨nid, ?_, ?_⟩
  · have hred : rewriteInput (buildTable wf) (.list [a, b]) =
        (match (buildTable wf).lookup (pyStr a) with
         | some nid => JValue.list [.str nid, b]
         | none => JValue.list [a, b]) := rfl
    rw [hred, hnid2]
  · have hmemIds : nid ∈ assignIds wf [] := lookup_zip_mem _ _ _ _ hnid
    have hsnd : (wf.zip (assignIds wf [])).map Prod.snd = assignIds wf [] :=
      map_snd_zip_eq_of_length wf (assignIds wf []) (assignIds_length wf []).symm
    unfold normalize_workflow_for_caching
    exact mem_foldl_upsert_keys Prod.snd
      (fun p => rewriteNode (buildTable wf) p.1.2)
      (wf.zip (assignIds wf [])) [] nid (.inr (by rw [hsnd]; exact hmemIds))

/-- The three-node workflow used to evaluate the C8 theorem. -/
def wfC8 : Workflow :=
  [("3", { class_type := some "CLIPLoader", inputs := some [] }),
   ("4", { class_type := some "KSampler",
           inputs := some [("clip", .list [.str "3", .num 0])] })]

theorem c8_reference_closure_witness :
    ((["3", "4"] : List String).Nodup
      ∧ pyStr (.str "3") ∈ wfC8.map Prod.fst)
    ∧ ∃ nid, rewriteInput (buildTable wfC8) (.list [.str "3", .num 0]) = .list [.str nid, .num 0]
      ∧ nid ∈ (normalize_workflow_for_caching wfC8).map Prod.fst :=
  ⟨⟨by decide, by decide⟩,
   c8_reference_closure wfC8 (by decide)
     "4" { class_type := some "KSampler", inputs := some [("clip", .list [.str "3", .num 0])] }
     [("clip", .list [.str "3", .num 0])] "clip" (.str "3") (.num 0)
     (List.mem_cons_of_mem _ (List.mem_cons_self _ _))
     rfl (List.mem_cons_self _ _) (by decide)⟩

/-!
C7 — the HTTP-400 decoding of `queue_workflow`.
-/

/-- Whether every checkpoint name the model-enumeration oracle yields is
a string (so that `", ".join(...)` cannot raise). -/
def checkpointNamesAllStr (oi : Except String JValue) : Bool :=
  match (get_available_models oi).lookup "checkpoints" with
  | some l => l.all (fun v => match v with | .str _ => true | _ => false)
  | none => true

/-- The 400-response bodies the decoding handles without an escaping
exception: a JSON object whose `node_errors` value (when present) is an
object and whose top-level `message` value (when present) is a string,
under an oracle with string checkpoint names. -/
def safe400Body (ed : JValue) (oi : Except String JValue) : Bool :=
  match ed with
  | .obj o =>
    (match o.lookup "node_errors" with
     | none => true
     | some (.obj _) => true
     | some _ => false)
    && (match o.lookup "message" with
        | none => true
        | some (.str _) => true
        | some _ => false)
    && checkpointNamesAllStr oi
  | _ => false

theorem pyJoinStrs_ok (sep : String) (xs : List JValue)
    (h : xs.all (fun v => match v with | .str _ => true | _ => false) = true) :
    ∃ s, pyJoinStrs sep xs = .ok s := by
  unfold pyJoinStrs
  rw [h]
  exact ⟨_, rfl⟩

theorem c7_safe_bodies_yield_valueError (o : List (String × JValue)) (raw : String)
    (oi : Except String JValue) (hsafe : safe400Body (.obj o) oi = true) :
    ∃ m, process400 (.obj o) raw oi = .valueError m := by
  unfold safe400Body at hsafe
  rw [Bool.and_eq_true, Bool.and_eq_true] at hsafe
  obtain ⟨⟨hne, hmsg⟩, hck⟩ := hsafe
  have hdet : ∃ details,
      (if o.any (fun p => p.1 == "node_errors") then
        match o.lookup "node_errors" with
        | some (.obj entries) =>
          Except.ok (entries.foldl (fun acc p => acc ++ formatNodeErrorLines p.1 p.2) [])
        | some _ => Except.error PyErr.attributeError
        | none => Except.ok []
       else (Except.ok [] : Except PyErr (List String))) = Except.ok details := by
    by_cases hA : (o.any fun p => p.1 == "node_errors") = true
    · rw [if_pos hA]
      cases hlook : o.lookup "node_errors" with
      | none => exact ⟨[], rfl⟩
      | some v =>
        rw [hlook] at hne
        cases v with
        | obj entries => exact ⟨_, rfl⟩
        | str s => simp at hne
        | num n => simp at hne
        | bool b => simp at hne
        | null => simp at hne
        | list xs => simp at hne
    · rw [if_neg hA]
      exact ⟨[], rfl⟩
  obtain ⟨details, hd⟩ := hdet
  unfold process400
  simp only [hd]
  by_cases hT : (o.lookup "type" == some (JValue.str "prompt_outputs_failed_validation")) = true
  · simp only [hT, if_true]
    cases hM : o.lookup "message" with
    | none =>
      cases hC : (get_available_models oi).lookup "checkpoints" with
      | none => exact ⟨_, rfl⟩
      | some l =>
        cases l with
        | nil => exact ⟨_, rfl⟩
        | cons c cs =>
          unfold checkpointNamesAllStr at hck
          rw [hC] at hck
          obtain ⟨s, hs⟩ := pyJoinStrs_ok ", " (c :: cs) hck
          simp only [hC, hs]
          exact ⟨_, rfl⟩
    | some mv =>
      rw [hM] at hmsg
      cases mv with
      | str ms =>
        cases hC : (get_available_models oi).lookup "checkpoints" with
        | none => exact ⟨_, rfl⟩
        | some l =>
          cases l with
          | nil => exact ⟨_, rfl⟩
          | cons c cs =>
            unfold checkpointNamesAllStr at hck
            rw [hC] at hck
            obtain ⟨s, hs⟩ := pyJoinStrs_ok ", " (c :: cs) hck
            simp only [hC, hs]
            exact ⟨_, rfl⟩
      | obj fields => simp at hmsg
      | num n => simp at hmsg
      | bool b => simp at hmsg
      | null => simp at hmsg
      | list xs => simp at hmsg
  · have hT2 : (o.lookup "type" == some (JValue.str "prompt_outputs_failed_validation")) = false := by
      simpa using hT
    simp only [hT2, Bool.false_eq_true, if_false]
    by_cases hE : details.isEmpty = true
    · simp only [hE, if_true]
      exact ⟨_, rfl⟩
    · have hE2 : details.isEmpty = false := by simpa using hE
      simp only [hE2, Bool.false_eq_true, if_false]
      by_cases hAny :
          (details.any fun d => strContains d "not in list" && strContains d "ckpt_name") = true
      · simp only [hAny, if_true]
        cases hC : (get_available_models oi).lookup "checkpoints" with
        | none => exact ⟨_, rfl⟩
        | some l =>
          cases l with
          | nil => exact ⟨_, rfl⟩
          | cons c cs =>
            unfold checkpointNamesAllStr at hck
            rw [hC] at hck
            obtain ⟨s, hs⟩ := pyJoinStrs_ok ", " (c :: cs) hck
            simp only [hC, hs]
            exact ⟨_, rfl⟩
      · have hAny2 :
            (details.any fun d => strContains d "not in list" && strContains d "ckpt_name") = false := by
          simpa using hAny
        simp only [hAny2, Bool.false_eq_true, if_false]
        exact ⟨_, rfl⟩

/-- C7 (counterexample to the claim as stated): a 400 response whose body
is the valid JSON number `5` makes `queue_workflow` raise a `TypeError`
(at the `"error" in error_data` membership test), not the claimed
`ValidationError`. -/
theorem c7_nonobject_400_body_counterexample :
    queue_workflow 400 "5" (some (.num 5)) (.error "engine unreachable")
      = .error PyErr.typeError := rfl

/-- C7 (amended): for a 400 response whose body is unparseable JSON the
raised `ValidationError` carries the raw response text and no parse
exception escapes; for a 400 whose body is a JSON object of the shapes
the decoder expects (`safe400Body`), some `ValidationError` is always
raised; per-node dictionary validation messages are formatted as
`Node <id> (<errorType>): <message>`; and `get_available_models` swallows
its own failures, returning an empty result instead of raising. -/
theorem c7_validation_error_decoding :
    (∀ (raw : String) (oi : Except String JValue),
      queue_workflow 400 raw none oi
        = .error (.valueError ("ComfyUI validation failed (could not parse error response): " ++ raw)))
    ∧ (∀ (o : List (String × JValue)) (raw : String) (oi : Except String JValue),
        safe400Body (.obj o) oi = true →
        ∃ m, queue_workflow 400 raw (some (.obj o)) oi = .error (.valueError m))
    ∧ (∀ (nid et msg raw : String) (oi : Except String JValue),
        (strContains ("Node " ++ nid ++ " (" ++ et ++ "): " ++ msg) "not in list"
          && strContains ("Node " ++ nid ++ " (" ++ et ++ "): " ++ msg) "ckpt_name") = false →
        queue_workflow 400 raw
            (some (.obj [("node_errors", .obj [(nid, .obj [(et, .str msg)])])])) oi
          = .error (.valueError
              ("Workflow validation failed:\n• Node " ++ nid ++ " (" ++ et ++ "): " ++ msg)))
    ∧ (∀ e : String, get_available_models (.error e) = []) := by
  refine ⟨?_, ?_, ?_, ?_⟩
  · intro raw oi
    rfl
  · intro o raw oi hsafe
    obtain ⟨m, hm⟩ := c7_safe_bodies_yield_valueError o raw oi hsafe
    exact ⟨m, by rw [show queue_workflow 400 raw (some (.obj o)) oi
      = .error (process400 (.obj o) raw oi) from rfl, hm]⟩
  · intro nid et msg raw oi hno
    rw [show queue_workflow 400 raw
        (some (.obj [("node_errors", .obj [(nid, .obj [(et, .str msg)])])])) oi
      = .error (process400 (.obj [("node_errors", .obj [(nid, .obj [(et, .str msg)])])]) raw oi)
      from rfl]
    refine congrArg Except.error ?_
    unfold process400
    simp [List.lookup, formatNodeErrorLines, pyStr, String.intercalate, hno]
    rw [show ∀ a : String, String.intercalate.go a "\n" [] = a from fun _ => rfl]
    simp [← String.append_assoc]
  · intro e
    rfl

theorem c7_validation_error_decoding_witness :
    safe400Body (.obj [("type", .str "prompt_outputs_failed_validation")]) (.error "down") = true
    ∧ (∃ m, queue_workflow 400 "raw body"
        (some (.obj [("type", .str "prompt_outputs_failed_validation")])) (.error "down")
        = .error (.valueError m))
    ∧ (strContains "Node 5 (required): missing input" "not in list"
        && strContains "Node 5 (required): missing input" "ckpt_name") = false
    ∧ queue_workflow 400 "ignored"
        (some (.obj [("node_errors", .obj [("5", .obj [("required", .str "missing input")])])]))
        (.error "down")
      = .error (.valueError "Workflow validation failed:\n• Node 5 (required): missing input") :=
  ⟨rfl,
   c7_validation_error_decoding.2.1 [("type", .str "prompt_outputs_failed_validation")]
     "raw body" (.error "down") rfl,
   rfl,
   c7_validation_error_decoding.2.2.1 "5" "required" "missing input" "ignored" (.error "down") rfl⟩

/-!
C10 — the handler returns an error-or-result dictionary (and the
workflow-normalization step outside the `try` block is the one place an
exception escapes).
-/

/-- The workflow node values `normalize_workflow_for_caching` survives: a
dictionary whose `class_type` is a string (or absent) and whose `inputs`
is a dictionary (or absent). -/
def wellFormedNode (v : JValue) : Bool :=
  match v with
  | .obj o =>
    (match o.lookup "class_type" with
     | none => true
     | some (.str _) => true
     | some _ => false)
    && (match o.lookup "inputs" with
        | none => true
        | some (.obj _) => true
        | some _ => false)
  | _ => false

/-- The images values `validate_input` checks without raising: any
non-list is rejected with an error message, and list elements must
support the `"name" in image` membership test. -/
def imagesSafe : Option JValue → Bool
  | some (.list xs) =>
    xs.all (fun x => match x with
      | .obj _ => true
      | .str _ => true
      | .list _ => true
      | _ => false)
  | _ => true

/-- Whether a returned dictionary carries an `error` key or at least one
of `images`/`status`. -/
def hasResultKey (r : HandlerResult) : Bool :=
  r.error.isSome || r.images.isSome || r.status.isSome

theorem pyIn_ok (needle : String) (v : JValue)
    (h : (match v with
      | JValue.obj _ => true
      | JValue.str _ => true
      | JValue.list _ => true
      | _ => false) = true) :
    ∃ b, pyIn needle v = .ok b := by
  cases v with
  | obj o => exact ⟨_, rfl⟩
  | str s => exact ⟨_, rfl⟩
  | list xs => exact ⟨_, rfl⟩
  | num n => simp at h
  | bool b => simp at h
  | null => simp at h

theorem imagesListOk_ok (xs : List JValue)
    (h : xs.all (fun x => match x with
      | JValue.obj _ => true
      | JValue.str _ => true
      | JValue.list _ => true
      | _ => false) = true) :
    ∃ b, imagesListOk xs = .ok b := by
  induction xs with
  | nil => exact ⟨true, rfl⟩
  | cons x rest ih =>
    rw [List.all_cons, Bool.and_eq_true] at h
    obtain ⟨hx, hrest⟩ := h
    obtain ⟨b, hb⟩ := ih hrest
    obtain ⟨b1, hb1⟩ := pyIn_ok "name" x hx
    simp only [imagesListOk, hb1]
    cases b1 with
    | false => exact ⟨false, rfl⟩
    | true =>
      obtain ⟨b2, hb2⟩ := pyIn_ok "image" x hx
      simp only [hb2, if_true]
      cases b2 with
      | false => exact ⟨false, rfl⟩
      | true => exact ⟨b, by simpa using hb⟩

theorem classTypeCheck_ok (v : JValue) (h : wellFormedNode v = true) :
    classTypeCheck v = .ok () := by
  cases v with
  | obj o =>
    unfold wellFormedNode at h
    rw [Bool.and_eq_true] at h
    simp only [classTypeCheck]
    cases hct : o.lookup "class_type" with
    | none => rfl
    | some w =>
      rw [hct] at h
      cases w with
      | str s => rfl
      | obj f => simp at h
      | list xs => simp at h
      | num n => simp at h
      | bool b => simp at h
      | null => simp at h
  | str s => simp [wellFormedNode] at h
  | num n => simp [wellFormedNode] at h
  | bool b => simp [wellFormedNode] at h
  | null => simp [wellFormedNode] at h
  | list xs => simp [wellFormedNode] at h

theorem toNodeE_ok (v : JValue) (h : wellFormedNode v = true) :
    ∃ nd, toNodeE v = .ok nd := by
  cases v with
  | obj o =>
    unfold wellFormedNode at h
    rw [Bool.and_eq_true] at h
    simp only [toNodeE]
    cases hin : o.lookup "inputs" with
    | none => exact ⟨_, rfl⟩
    | some w =>
      rw [hin] at h
      cases w with
      | obj ivs => exact ⟨_, rfl⟩
      | str s => simp at h
      | list xs => simp at h
      | num n => simp at h
      | bool b => simp at h
      | null => simp at h
  | str s => simp [wellFormedNode] at h
  | num n => simp [wellFormedNode] at h
  | bool b => simp [wellFormedNode] at h
  | null => simp [wellFormedNode] at h
  | list xs => simp [wellFormedNode] at h

theorem mapExcept_ok_of_forall {α β : Type} (f : α → Except PyErr β) :
    ∀ l : List α, (∀ x ∈ l, ∃ y, f x = .ok y) → ∃ ys, mapExcept f l = .ok ys := by
  intro l
  induction l with
  | nil => intro _; exact ⟨[], rfl⟩
  | cons x rest ih =>
    intro h
    obtain ⟨y, hy⟩ := h x (List.mem_cons_self _ _)
    obtain ⟨ys, hys⟩ := ih (fun z hz => h z (List.mem_cons_of_mem _ hz))
    refine ⟨y :: ys, ?_⟩
    unfold mapExcept
    rw [hy, hys]

theorem decodeWorkflow_ok (nodes : List (String × JValue))
    (h : nodes.all (fun p => wellFormedNode p.2) = true) :
    ∃ wf, decodeWorkflow nodes = .ok wf := by
  have hall : ∀ p ∈ nodes, wellFormedNode p.2 = true := by
    intro p hp
    exact List.all_eq_true.mp h p hp
  obtain ⟨us, hus⟩ := mapExcept_ok_of_forall (fun p => classTypeCheck p.2) nodes
    (fun p hp => ⟨(), classTypeCheck_ok p.2 (hall p hp)⟩)
  obtain ⟨wf, hwf⟩ := mapExcept_ok_of_forall
    (fun p => (toNodeE p.2).map (fun nd => (p.1, nd))) nodes
    (fun p hp => by
      obtain ⟨nd, hnd⟩ := toNodeE_ok p.2 (hall p hp)
      exact ⟨(p.1, nd), by simp only [hnd, Except.map]⟩)
  refine ⟨wf, ?_⟩
  unfold decodeWorkflow
  rw [hus, hwf]

theorem errorDict_key (e : PyErr) : (errorDict e).error.isSome = true := by
  cases e <;> rfl

theorem classifyResult_key (od : List OutputEntry) (errs : List String) :
    hasResultKey (classifyResult od errs) = true := by
  cases od with
  | nil =>
    cases errs with
    | nil => rfl
    | cons b u => rfl
  | cons a t =>
    cases errs with
    | nil => rfl
    | cons b u => rfl

theorem errorDict_hasKey (e : PyErr) : hasResultKey (errorDict e) = true := by
  cases e <;> rfl

theorem finishPhase_tryHistory_key (env : HandlerEnv) (pid : JValue) (errs : List String) :
    hasResultKey (finishPhase (tryHistory env pid errs)) = true := by
  unfold tryHistory
  cases hh : env.historyRes with
  | error e => exact errorDict_hasKey e
  | ok h =>
    dsimp only
    cases hin : pyInJValue pid h with
    | error e => exact errorDict_hasKey e
    | ok b =>
      cases b with
      | false =>
        dsimp only
        cases he : errs.isEmpty with
        | true => rfl
        | false => rfl
      | true =>
        cases h with
        | obj o =>
          dsimp only
          split
          next po hpo =>
            cases hdec : decodeOutputs ((po.lookup "outputs").getD (.obj [])) with
            | error e => exact errorDict_hasKey e
            | ok nodes => exact classifyResult_key _ _
          next hpo => exact errorDict_hasKey .attributeError
        | str s => exact errorDict_hasKey .attributeError
        | num n => exact errorDict_hasKey .attributeError
        | bool b2 => exact errorDict_hasKey .attributeError
        | null => exact errorDict_hasKey .attributeError
        | list xs => exact errorDict_hasKey .attributeError

theorem finishPhase_tryPhase_key (env : HandlerEnv) :
    hasResultKey (finishPhase (tryPhase env)) = true := by
  unfold tryPhase
  cases hws : env.wsConnect with
  | some e => exact errorDict_hasKey e
  | none =>
    dsimp only
    cases hq : queue_workflow env.queueStatus env.queueBodyText env.queueBodyJson env.objectInfo with
    | error e =>
      cases e with
      | valueError m => exact errorDict_hasKey _
      | jsonDecodeError => exact errorDict_hasKey _
      | httpError m => exact errorDict_hasKey _
      | typeError => exact errorDict_hasKey _
      | attributeError => exact errorDict_hasKey _
      | wsError m => exact errorDict_hasKey _
      | streamClosed m => exact errorDict_hasKey _
    | ok body =>
      dsimp only
      split
      next e hpid => exact errorDict_hasKey e
      next pid hpid =>
        cases hm : monitorLoop pid env.frames [] with
        | ranOut errs2 => exact errorDict_hasKey _
        | completedBreak errs2 rest => exact finishPhase_tryHistory_key env pid errs2
        | errorBreak errs2 rest =>
          dsimp only
          cases he : errs2.isEmpty with
          | true => exact errorDict_hasKey _
          | false => exact finishPhase_tryHistory_key env pid errs2

/-- A trivial handler environment for the C10 evaluations. -/
def stubEnv : HandlerEnv :=
  { collect :=
      { bucketConfigured := false,
        fetchImage := fun _ _ _ => [],
        fetchVideo := fun _ _ _ => [],
        uploadS3 := fun _ => .error "unused",
        b64encode := fun _ => "" } }

/-- C10 (counterexample to the claim as stated): with `input` and `id`
present and the workflow value a dictionary, the handler still propagates
an exception when a node value is not a dictionary (the pre-`try`
normalization crashes with `AttributeError`), and when an images entry is
a non-container (validation crashes with `TypeError`). -/
theorem c10_handler_propagates_counterexample :
    handler stubEnv "job-1" { workflow := some (.obj [("a", .num 5)]) }
      = .error PyErr.attributeError
    ∧ handler stubEnv "job-2" { workflow := some (.obj []), images := some (.list [.num 3]) }
      = .error PyErr.typeError :=
  ⟨rfl, rfl⟩

/-- C10 (amended): for every job whose input carries `input` and `id`,
whose workflow value is a dictionary of well-formed nodes (dict-valued,
with string class types and dict-valued inputs) and whose images value
cannot crash the membership test, the handler returns a dictionary —
every exception of the monitoring/collection phase is converted into an
`error` result — and every returned dictionary carries `error` or one of
`images`/`status`. -/
theorem c10_handler_result_shape (env : HandlerEnv) (jid : String) (ji : JobInput)
    (rawNodes : List (String × JValue))
    (hw : ji.workflow = some (.obj rawNodes))
    (hn : rawNodes.all (fun p => wellFormedNode p.2) = true)
    (hi : imagesSafe ji.images = true) :
    ∃ r, handler env jid ji = .ok r ∧ hasResultKey r = true := by
  obtain ⟨wfT, hwf⟩ := decodeWorkflow_ok rawNodes hn
  have hbranch : ∀ vd : ValidatedData, vd.workflow = .obj rawNodes →
      ∃ r, (match decodeWorkflow rawNodes with
        | .error e => (.error e : Except PyErr HandlerResult)
        | .ok wfT2 =>
          let _normalized := normalize_workflow_for_caching wfT2
          if !env.serverReachable then
            .ok { error := some "ComfyUI server (127.0.0.1:8188) not reachable after multiple retries." }
          else if imagesPresent vd && !env.uploadErrors.isEmpty then
            .ok { error := some "Failed to upload one or more input images",
                  details := some env.uploadErrors }
          else .ok (finishPhase (tryPhase env))) = .ok r ∧ hasResultKey r = true := by
    intro vd _
    rw [hwf]
    by_cases hs : env.serverReachable = true
    · by_cases hu : (imagesPresent vd && !env.uploadErrors.isEmpty) = true
      · simp only [hs, Bool.not_true, Bool.false_eq_true, if_false, hu, if_true]
        exact ⟨_, rfl, rfl⟩
      · have hu2 : (imagesPresent vd && !env.uploadErrors.isEmpty) = false := by simpa using hu
        simp only [hs, Bool.not_true, Bool.false_eq_true, if_false, hu2]
        exact ⟨_, rfl, finishPhase_tryPhase_key env⟩
    · have hs2 : env.serverReachable = false := by simpa using hs
      simp only [hs2, Bool.not_false, if_true]
      exact ⟨_, rfl, rfl⟩
  unfold handler validate_input
  rw [hw]
  cases hji : ji.images with
  | none => exact hbranch { workflow := .obj rawNodes } rfl
  | some v =>
    rw [hji] at hi
    cases v with
    | null => exact hbranch { workflow := .obj rawNodes } rfl
    | list xs =>
      obtain ⟨b, hb⟩ := imagesListOk_ok xs (by simpa [imagesSafe] using hi)
      dsimp only
      rw [hb]
      cases b with
      | true => exact hbranch { workflow := .obj rawNodes, images := some (.list xs) } rfl
      | false => exact ⟨_, rfl, rfl⟩
    | obj o => exact ⟨_, rfl, rfl⟩
    | str s => exact ⟨_, rfl, rfl⟩
    | num n => exact ⟨_, rfl, rfl⟩
    | bool b => exact ⟨_, rfl, rfl⟩

theorem c10_handler_result_shape_witness :
    ({ workflow := some (.obj [("3", .obj [("class_type", .str "KSampler"),
        ("inputs", .obj [])])]) } : JobInput).workflow
      = some (.obj [("3", .obj [("class_type", .str "KSampler"), ("inputs", .obj [])])])
    ∧ ∃ r, handler stubEnv "w"
        { workflow := some (.obj [("3", .obj [("class_type", .str "KSampler"),
            ("inputs", .obj [])])]) } = .ok r ∧ hasResultKey r = true :=
  ⟨rfl,
   c10_handler_result_shape stubEnv "w"
     { workflow := some (.obj [("3", .obj [("class_type", .str "KSampler"),
         ("inputs", .obj [])])]) }
     [("3", .obj [("class_type", .str "KSampler"), ("inputs", .obj [])])]
     rfl rfl rfl⟩

end WorkerComfy
